import Mathlib

/-!
# TopOpt.cc: mesh set-up, design state and checkpoint/restart

A shallow embedding of `TopOpt::SetUpMESH`, `TopOpt::AllocateMMAwithRestart`
and `TopOpt::WriteRestartFiles` from `src/TopOpt.cc`, and theorems about them.

Conventions of the embedding:
* `PetscInt` is `Int`; the values of the program are the 32-bit ones,
  `-2147483648 .. 2147483647`.  In the multigrid test (the cast
  `(PetscInt) divisor`, and `n - 1` at the least value) and in the `rmin`
  expression the embedding computes what the two's-complement build on x86
  computes (`castPetscInt`, `minusOne`).  The other integer expressions are
  embedded as exact arithmetic (no wrap-around is modelled there); after a test
  that lets the node counts pass, their `n - 1` stays inside the range.
* `PetscScalar`/`PetscReal` are `ℚ`.  The arithmetic of the multigrid test only
  divides integers by powers of two, which binary floating point does exactly
  as long as the quotient is below `2^1024`; `mgIncompatible` says what the
  test does beyond, where the double is an infinity or a NaN.
* PETSc calls follow their documented success path; a call the model cannot
  follow (a null handle, a container that ends early, a file of the wrong
  kind) makes the embedded function return `none`.
-/

namespace TopOpt

/-- Values of type `PetscScalar` (and `PetscReal`). -/
abbrev PetscScalar := ℚ

/-- Values of type `PetscInt`. -/
abbrev PetscInt := Int

/-! ## The multigrid compatibility test of `SetUpMESH` -/

/-- The local `divisor = PetscPowScalar(2.0, (PetscScalar) nlvls - 1.0)`, as the
exact power of two.  The double is that power for `-1073 ≤ nlvls ≤ 1024`; below
it is 0 and above it is `+inf`, which `mgIncompatible` accounts for. -/
def divisor (nlvls : PetscInt) : PetscScalar := (2 : ℚ) ^ (nlvls - 1)

/-- The C cast `(PetscInt) q` to a 32-bit `PetscInt`: truncation towards zero
when the truncated value is representable.  When it is not (C leaves the
conversion undefined) the x86 conversion instruction delivers the least value,
`-2147483648`, also for `+inf`. -/
def castPetscInt (q : PetscScalar) : PetscInt :=
  if 0 ≤ q then
    if Int.floor q ≤ 2147483647 then Int.floor q else -2147483648
  else
    if -2147483648 ≤ Int.ceil q then Int.ceil q else -2147483648

/-- The `PetscInt` expression `n - 1` on 32 bits.  It leaves the range only
below the least value, that is for `n = -2147483648`, where two's-complement
arithmetic wraps around to `2147483647`. -/
def minusOne (n : PetscInt) : PetscInt :=
  if n - 1 < -2147483648 then n - 1 + 4294967296 else n - 1

/-- The condition of one `if` of the compatibility test, for the axis with `n`
nodes:
`std::floor((PetscScalar)(n - 1) / divisor) != (n - 1.0) / ((PetscInt) divisor)`.
On the left `n - 1` is a `PetscInt` subtraction (`minusOne`), on the right a
subtraction of doubles (exact).

When `(PetscInt) divisor` is `0` (that is `nlvls ≤ 0`) the right-hand side is a
division by zero: a NaN for `n = 1`, otherwise the infinity with the sign of
`n - 1`.  The left-hand side is that same infinity when its quotient `q`
overflows (`|q| ≥ 2^1024`, which includes the `divisor` that is rounded to 0);
only then are the two sides equal.

When `(PetscInt) divisor` is not `0` (`nlvls ≥ 1`) all the quotients are exact.
For `nlvls > 1024` the double `divisor` is `+inf` instead of the power of two:
the floor on the left is then `0` where the expression below gives `0` or `-1`,
the right-hand side is `(n - 1) / -2147483648` either way, and for a 32-bit `n`
the two sides are equal exactly for `n = 1` either way. -/
def mgIncompatible (n nlvls : PetscInt) : Bool :=
  let d := divisor nlvls
  let di := castPetscInt d
  let q : PetscScalar := ((minusOne n : Int) : ℚ) / d
  if di = 0 then
    !(decide (((2 : ℚ) ^ 1024 ≤ q ∧ 0 < n - 1) ∨ (q ≤ -(2 : ℚ) ^ 1024 ∧ n - 1 < 0)))
  else decide (((Int.floor q : Int) : ℚ) ≠ ((n : ℚ) - 1) / (di : ℚ))

/-- The spatial axes, in the order in which `SetUpMESH` tests them. -/
inductive Axis where
  | X
  | Y
  | Z
  deriving DecidableEq, Repr

/-- The compile-time constant `DIM`. -/
inductive Dim where
  | two
  | three
  deriving DecidableEq, Repr

/-- The sequence of `if (...) { PetscPrintf ...; exit (0); }` blocks of
`SetUpMESH`: the axis whose block calls `exit`, or `none` when control reaches
`// Start setting up the FE problem`.  With `DIM == 2` there is no z block. -/
def mgCheck (DIM : Dim) (nx ny nz nlvls : PetscInt) : Option Axis :=
  if mgIncompatible nx nlvls then some Axis.X
  else if mgIncompatible ny nlvls then some Axis.Y
  else match DIM with
    | Dim.two => none
    | Dim.three => if mgIncompatible nz nlvls then some Axis.Z else none

/-! ## The grids built by `SetUpMESH` -/

/-- The compile-time constant `PHYSICS`: 0 linear elasticity, 1 compliant
mechanism, 2 linear heat conduction. -/
inductive Physics where
  | elasticity
  | compliant
  | heat
  deriving DecidableEq, Repr

/-- The bounding box handed to `DMDASetUniformCoordinates`.  A bound is `none`
when its computation divided by zero (no finite value). -/
structure UniformCoordinates where
  xmin : Option PetscScalar
  xmax : Option PetscScalar
  ymin : Option PetscScalar
  ymax : Option PetscScalar
  zmin : Option PetscScalar
  zmax : Option PetscScalar
  deriving DecidableEq, Repr

/-- A structured grid as described by the arguments of `DMDACreate2d` /
`DMDACreate3d`: global extents `M N P`, degrees of freedom per point, stencil
width, and the per-axis ownership ranges (entry `i` is the extent of the slab
of rank `i`).  A 2D grid has `P = 1` and no z ranges. -/
structure DMDA where
  M : PetscInt
  N : PetscInt
  P : PetscInt
  dof : PetscInt
  stencilwidth : PetscInt
  lx : List PetscInt
  ly : List PetscInt
  lz : List PetscInt
  coordinates : Option UniformCoordinates
  deriving DecidableEq, Repr

/-- The command-line options read by `SetUpMESH` (`PetscOptionsGetInt` /
`PetscOptionsGetReal` leave the variable alone when the option is absent). -/
structure MeshOptions where
  nx : Option PetscInt := none
  ny : Option PetscInt := none
  nz : Option PetscInt := none
  xcmin : Option PetscScalar := none
  xcmax : Option PetscScalar := none
  ycmin : Option PetscScalar := none
  ycmax : Option PetscScalar := none
  zcmin : Option PetscScalar := none
  zcmax : Option PetscScalar := none
  penal : Option PetscScalar := none
  nlvls : Option PetscInt := none
  deriving DecidableEq, Repr

/-- The members of `TopOpt` that `SetUpMESH` reads or writes. -/
structure MeshState where
  nxyz0 : PetscInt
  nxyz1 : PetscInt
  nxyz2 : PetscInt
  xc0 : PetscScalar
  xc1 : PetscScalar
  xc2 : PetscScalar
  xc3 : PetscScalar
  xc4 : PetscScalar
  xc5 : PetscScalar
  penal : PetscScalar
  nlvls : PetscInt
  dx : Option PetscScalar := none
  dy : Option PetscScalar := none
  dz : Option PetscScalar := none
  da_nodes : Option DMDA := none
  da_elem : Option DMDA := none
  deriving DecidableEq, Repr

/-- The option-reading prologue of `SetUpMESH`; `-nz`, `-zcmin`, `-zcmax` are
read only when `DIM == 3`. -/
def readMeshOptions (DIM : Dim) (o : MeshOptions) (s : MeshState) : MeshState :=
  let s := { s with
    nxyz0 := o.nx.getD s.nxyz0
    nxyz1 := o.ny.getD s.nxyz1
    xc0 := o.xcmin.getD s.xc0
    xc1 := o.xcmax.getD s.xc1
    xc2 := o.ycmin.getD s.xc2
    xc3 := o.ycmax.getD s.xc3
    penal := o.penal.getD s.penal
    nlvls := o.nlvls.getD s.nlvls }
  match DIM with
  | Dim.two => s
  | Dim.three => { s with
      nxyz2 := o.nz.getD s.nxyz2
      xc4 := o.zcmin.getD s.xc4
      xc5 := o.zcmax.getD s.xc5 }

/-- The local `numnodaldof`. -/
def numnodaldof (DIM : Dim) (PHYSICS : Physics) : PetscInt :=
  match PHYSICS, DIM with
  | Physics.heat, _ => 1
  | _, Dim.two => 2
  | _, Dim.three => 3

/-- The node spacing `(hi - lo) / (PetscScalar (n - 1))`; `none` when the
divisor is zero. -/
def spacing (lo hi : PetscScalar) (n : PetscInt) : Option PetscScalar :=
  if n - 1 = 0 then none else some ((hi - lo) / ((n - 1 : Int) : ℚ))

/-- The loop
`for (int i = 0; i < md; i++) { Lx[i] = LxCorrect[i]; if (i == 0) Lx[i] = Lx[i] - 1; }`
that fills the element-grid partition table. -/
def elemPartition (md : Nat) (LxCorrect : List PetscInt) : List PetscInt :=
  (List.range md).map fun i =>
    let Lxi := LxCorrect.getD i 0
    if i = 0 then Lxi - 1 else Lxi

/-- What a call of `SetUpMESH` leads to: `exit (0)` after the diagnostic naming
an axis, its node count and `nlvls - 1`; or a normal return with the members
updated. -/
inductive MeshResult where
  | exited (axis : Axis) (nodes : PetscInt) (halvings : PetscInt)
  | returned (s : MeshState)
  deriving DecidableEq, Repr

/-- The function `TopOpt::SetUpMESH`.  `LxCorrect LyCorrect LzCorrect` are the
ownership ranges that `DMDAGetOwnershipRanges` reports for the node grid, which
PETSc chose (`PETSC_DECIDE`); `md nd pd` of the source are their lengths. -/
def SetUpMESH (DIM : Dim) (PHYSICS : Physics) (o : MeshOptions)
    (LxCorrect LyCorrect LzCorrect : List PetscInt) (s0 : MeshState) : MeshResult :=
  let s := readMeshOptions DIM o s0
  match mgCheck DIM s.nxyz0 s.nxyz1 s.nxyz2 s.nlvls with
  | some Axis.X => MeshResult.exited Axis.X s.nxyz0 (s.nlvls - 1)
  | some Axis.Y => MeshResult.exited Axis.Y s.nxyz1 (s.nlvls - 1)
  | some Axis.Z => MeshResult.exited Axis.Z s.nxyz2 (s.nlvls - 1)
  | none =>
    let nx := s.nxyz0
    let ny := s.nxyz1
    let dx := spacing s.xc0 s.xc1 s.nxyz0
    let dy := spacing s.xc2 s.xc3 s.nxyz1
    let md := LxCorrect.length
    let nd := LyCorrect.length
    let Lx := elemPartition md LxCorrect
    let Ly := elemPartition nd LyCorrect
    match DIM with
    | Dim.two =>
      let da_nodes : DMDA :=
        { M := nx, N := ny, P := 1, dof := numnodaldof DIM PHYSICS, stencilwidth := 1,
          lx := LxCorrect, ly := LyCorrect, lz := [],
          coordinates := some
            { xmin := some s.xc0, xmax := some s.xc1, ymin := some s.xc2, ymax := some s.xc3,
              zmin := some 0, zmax := some 0 } }
      let da_elem : DMDA :=
        { M := nx - 1, N := ny - 1, P := 1, dof := 1, stencilwidth := 0,
          lx := Lx, ly := Ly, lz := [],
          coordinates := some
            { xmin := dx.map fun d => s.xc0 + d / 2, xmax := dx.map fun d => s.xc1 - d / 2,
              ymin := dy.map fun d => s.xc2 + d / 2, ymax := dy.map fun d => s.xc3 - d / 2,
              zmin := some 0, zmax := some 0 } }
      MeshResult.returned
        { s with dx := dx, dy := dy, da_nodes := some da_nodes, da_elem := some da_elem }
    | Dim.three =>
      let nz := s.nxyz2
      let dz := spacing s.xc4 s.xc5 s.nxyz2
      let pd := LzCorrect.length
      let Lz := elemPartition pd LzCorrect
      let da_nodes : DMDA :=
        { M := nx, N := ny, P := nz, dof := numnodaldof DIM PHYSICS, stencilwidth := 1,
          lx := LxCorrect, ly := LyCorrect, lz := LzCorrect,
          coordinates := some
            { xmin := some s.xc0, xmax := some s.xc1, ymin := some s.xc2, ymax := some s.xc3,
              zmin := some s.xc4, zmax := some s.xc5 } }
      let da_elem : DMDA :=
        { M := nx - 1, N := ny - 1, P := nz - 1, dof := 1, stencilwidth := 0,
          lx := Lx, ly := Ly, lz := Lz,
          coordinates := some
            { xmin := dx.map fun d => s.xc0 + d / 2, xmax := dx.map fun d => s.xc1 - d / 2,
              ymin := dy.map fun d => s.xc2 + d / 2, ymax := dy.map fun d => s.xc3 - d / 2,
              zmin := dz.map fun d => s.xc4 + d / 2, zmax := dz.map fun d => s.xc5 - d / 2 } }
      MeshResult.returned
        { s with dx := dx, dy := dy, dz := dz,
                 da_nodes := some da_nodes, da_elem := some da_elem }

/-- The defaults that `SetUp` assigns before it calls `SetUpMESH`, for
`DIM == 3`: node counts, bounding box, `penal = 3.0`, `nlvls = 4`. -/
def defaults3D (PHYSICS : Physics) : MeshState :=
  match PHYSICS with
  | Physics.elasticity =>
    { nxyz0 := 65, nxyz1 := 33, nxyz2 := 33, xc0 := 0, xc1 := 2, xc2 := 0, xc3 := 1,
      xc4 := 0, xc5 := 1, penal := 3, nlvls := 4 }
  | Physics.compliant =>
    { nxyz0 := 81, nxyz1 := 41, nxyz2 := 9, xc0 := 0, xc1 := 80, xc2 := 0, xc3 := 40,
      xc4 := 0, xc5 := 10, penal := 3, nlvls := 4 }
  | Physics.heat =>
    { nxyz0 := 49, nxyz1 := 65, nxyz2 := 49, xc0 := 0, xc1 := 50, xc2 := 0, xc3 := 62,
      xc4 := 0, xc5 := 50, penal := 3, nlvls := 4 }

/-- The requirement as the specification words it: `(n - 1) mod 2^(levels - 1) == 0`. -/
def Halvable (n levels : PetscInt) : Prop :=
  (n - 1) % 2 ^ (levels - 1).toNat = 0

instance (n levels : PetscInt) : Decidable (Halvable n levels) := by
  unfold Halvable; infer_instance

/-- The relation the specification states between a node-grid partition table
and the element-grid one: same length, the first rank's extent one less, every
other rank's extent the same. -/
def FirstRankMinusOne (node elem : List PetscInt) : Prop :=
  elem.length = node.length ∧ elem[0]? = node[0]?.map (fun v => v - 1) ∧
    ∀ i : Nat, elem[i + 1]? = node[i + 1]?

/-! ## Vectors, files and the text form of the scale factor -/

/-- A PETSc `Vec`: the grid whose layout it has, and its entries in global
order. -/
structure Vec where
  layout : DMDA
  vals : List PetscScalar
  deriving DecidableEq, Repr

/-- The call `VecDuplicate (v, &w)`: new storage with the layout and size of
`v`; the entries are not copied (PETSc zero-fills new storage). -/
def VecDuplicate (v : Vec) : Vec :=
  { layout := v.layout, vals := List.replicate v.vals.length 0 }

/-- The call `VecGetSize (v, &n)`. -/
def VecGetSize (v : Vec) : PetscInt := (v.vals.length : Int)

/-- Rounding to the nearest integer, ties to even (the default rounding of the
C library when it prints a number). -/
def roundHalfEven (q : ℚ) : Int :=
  let f := Int.floor q
  let r := q - (f : ℚ)
  if r < 1 / 2 then f
  else if 1 / 2 < r then f + 1
  else if f % 2 = 0 then f else f + 1

/-- The number denoted by the text that the conversion `%e` prints for `v`: one
digit before the decimal point and six after it (the default precision), times
a power of ten. -/
def printfE (v : PetscScalar) : PetscScalar :=
  if v = 0 then 0
  else
    let e : Int := Int.log 10 |v|
    let digits : Int := roundHalfEven (|v| / (10 : ℚ) ^ e * 10 ^ 6)
    (if v < 0 then -1 else 1) * (digits : ℚ) * (10 : ℚ) ^ (e - 6)

/-- The content of a file: a PETSc binary container, which is the sequence of
the vectors written to it, or the text file with the iteration number and the
scale factor (each as the number its text denotes). -/
inductive File where
  | binary (vecs : List (List PetscScalar))
  | ascii (itr : PetscInt) (fscale : PetscScalar)
  deriving DecidableEq, Repr

/-- The file system: the content of each path that names a file. -/
abbrev FS := String → Option File

/-- Creating or overwriting the file at `name`. -/
def FS.write (fs : FS) (name : String) (f : File) : FS :=
  fun p => if p = name then some f else fs p

/-- Modelled from the spec: `fexists` is declared outside `src/`; the spec has the
resume decision test that the configured path exists.  The empty path, which
stands for a path that was not configured, names no file. -/
def fexists (fs : FS) (name : String) : Bool :=
  decide (name ≠ "") && (fs name).isSome

/-- The call `VecView (v, view)` on a binary viewer opened for writing on the
file `view`: the vector is appended to the container. -/
def VecView (v : Vec) (view : String) (fs : FS) : FS :=
  match fs view with
  | some (File.binary vecs) => fs.write view (File.binary (vecs ++ [v.vals]))
  | _ => fs

/-- The call `VecLoad (v, view)` on a binary viewer opened for reading, `view`
being what is left to read: the next vector of the container is read into `v`,
which keeps its layout (the source assumes that the stored size is the size of
`v`: "ASSUMES THAT SIZE IS ALWAYS MATCHED TO CURRENT MESH").  `none` when the
handle `v` is null or the container has no further vector. -/
def VecLoad (v : Option Vec) (view : List (List PetscScalar)) :
    Option (Vec × List (List PetscScalar)) :=
  match v, view with
  | some w, vals :: rest => some ({ w with vals := vals }, rest)
  | _, _ => none

/-- The call `VecCopy (src, dst)` between vectors of one size: `dst` takes the
entries of `src`. -/
def VecCopy (src : List PetscScalar) (dst : Vec) : Vec := { dst with vals := src }

/-! ## The optimisation state and the optimizer handle -/

/-- The members of a constructed `TopOpt` object used by the allocation and
checkpoint code.  The vectors created by `SetUpOPT` exist in every constructed
object; `xo1 xo2 U L` are null (`none`) until `AllocateMMAwithRestart` creates
them. -/
structure State where
  m : Nat
  restart : Bool
  flip : Bool
  fscale : PetscScalar
  x : Vec
  xTilde : Vec
  xPhys : Vec
  dfdx : Vec
  dgdx : List Vec
  gx : List PetscScalar
  xold : Vec
  xmin : Vec
  xmax : Vec
  xo1 : Option Vec
  xo2 : Option Vec
  U : Option Vec
  L : Option Vec
  xPassive0 : Vec
  xPassive1 : Vec
  xPassive2 : Vec
  xPassive3 : Vec
  nodeDensity : Vec
  nodeAddingCounts : Vec
  filename00 : String
  filename00Itr : String
  filename01 : String
  filename01Itr : String
  deriving DecidableEq, Repr

/-- Modelled from the spec: the class `MMA` is outside `src/`; the spec has the
optimizer constructed either from a design vector or from a full history, with
per-constraint coefficients.  A handle is the constructor call that made it,
with the arguments in the order of the source. -/
inductive MMA where
  | fromDesign (n : PetscInt) (m : Nat) (x : Vec) (a c d : List PetscScalar)
  | fromHistory (n : PetscInt) (m : Nat) (itr : PetscInt) (xo1 xo2 U L : Vec)
      (a c d : List PetscScalar)
  deriving DecidableEq, Repr

/-- Modelled from the spec: `MMA::Restart` is outside `src/`; the spec calls it an
accessor returning the optimizer's four internal history vectors.  These are
the entries it copies out. -/
structure MMARestart where
  xo1 : List PetscScalar
  xo2 : List PetscScalar
  U : List PetscScalar
  L : List PetscScalar
  deriving DecidableEq, Repr

/-- The options read by `AllocateMMAwithRestart`. -/
structure RestartOptions where
  restart : Option Bool := none
  onlyLoadDesign : Option Bool := none
  workdir : Option String := none
  restartFileVec : Option String := none
  restartFileItr : Option String := none
  deriving DecidableEq, Repr

/-- What `AllocateMMAwithRestart` leaves behind: the object, the caller's
iteration counter `itr[0]`, the optimizer `*mma`, and the files it opened for
reading, in order. -/
structure Allocated where
  state : State
  itr : PetscInt
  mma : MMA
  reads : List String
  deriving DecidableEq, Repr

/-- The arrays `aMMA`, `cMMA`, `dMMA` after the loop
`for (i = 0; i < m; i++) { aMMA[i] = 0.0; dMMA[i] = 0.0; cMMA[i] = 1000.0; }`,
in the order `(aMMA, cMMA, dMMA)`. -/
def mmaCoefficients (m : Nat) :
    List PetscScalar × List PetscScalar × List PetscScalar :=
  ((List.range m).map fun _ => 0, (List.range m).map fun _ => 1000,
    (List.range m).map fun _ => 0)

/-- The function `TopOpt::AllocateMMAwithRestart`, called with `itr[0] = itr` on
the object `s` and the file system `fs`.  `none` when a PETSc call of the resume
branch cannot be followed (a file of the wrong kind, a container with fewer
than six vectors). -/
def AllocateMMAwithRestart (o : RestartOptions) (fs : FS) (s : State) (itr : PetscInt) :
    Option Allocated :=
  let (aMMA, cMMA, dMMA) := mmaCoefficients s.m
  let restart := o.restart.getD true
  let flip := true
  let onlyLoadDesign := o.onlyLoadDesign.getD false
  let s := { s with restart := restart, flip := flip }
  let s := if restart then
      { s with xo1 := some (VecDuplicate s.x), xo2 := some (VecDuplicate s.x),
               U := some (VecDuplicate s.x), L := some (VecDuplicate s.x) }
    else s
  let filenameWorkdir := match o.workdir with
    | some w => "" ++ w
    | none => "./"
  let s := { s with
    filename00 := filenameWorkdir ++ "/Restart00.dat"
    filename00Itr := filenameWorkdir ++ "/Restart00_itr_f0.dat"
    filename01 := filenameWorkdir ++ "/Restart01.dat"
    filename01Itr := filenameWorkdir ++ "/Restart01_itr_f0.dat" }
  let restartFileVec := match o.restartFileVec with
    | some f => "" ++ f
    | none => ""
  let restartFileItr := match o.restartFileItr with
    | some f => "" ++ f
    | none => ""
  let vecFile := fexists fs restartFileVec
  let itrFile := fexists fs restartFileItr
  let nGlobalDesignVar := VecGetSize s.x
  if restart && vecFile && itrFile then
    match fs restartFileVec, fs restartFileItr with
    | some (File.binary view), some (File.ascii itr0 fscale) => do
      let (x, view) ← VecLoad (some s.x) view
      let (xPhys, view) ← VecLoad (some s.xPhys) view
      let (xo1, view) ← VecLoad s.xo1 view
      let (xo2, view) ← VecLoad s.xo2 view
      let (U, view) ← VecLoad s.U view
      let (L, _) ← VecLoad s.L view
      let s := { s with x := x, xPhys := xPhys, xo1 := some xo1, xo2 := some xo2,
                        U := some U, L := some L, fscale := fscale }
      let mma :=
        if onlyLoadDesign then MMA.fromDesign nGlobalDesignVar s.m s.x aMMA cMMA dMMA
        else MMA.fromHistory nGlobalDesignVar s.m itr0 xo1 xo2 U L aMMA cMMA dMMA
      some { state := s, itr := itr0, mma := mma, reads := [restartFileVec, restartFileItr] }
    | _, _ => none
  else
    some { state := s, itr := itr,
           mma := MMA.fromDesign nGlobalDesignVar s.m s.x aMMA cMMA dMMA, reads := [] }

/-- The function `TopOpt::WriteRestartFiles`, called with `itr[0] = itr` and an
optimizer whose `Restart` accessor hands out `mma`: the returned error code,
the object and the file system afterwards.  `none` when a history vector is
null, which the PETSc calls cannot follow. -/
def WriteRestartFiles (s : State) (fs : FS) (itr : PetscInt) (mma : MMARestart) :
    Option (Int × State × FS) :=
  if !s.restart then some (-1, s, fs)
  else
    match s.xo1, s.xo2, s.U, s.L with
    | some xo1, some xo2, some U, some L =>
      let s := { s with xo1 := some (VecCopy mma.xo1 xo1), xo2 := some (VecCopy mma.xo2 xo2),
                        U := some (VecCopy mma.U U), L := some (VecCopy mma.L L) }
      let s := if s.flip then { s with flip := false } else { s with flip := true }
      let view := if !s.flip then s.filename00 else s.filename01
      let restartItrF0 := if !s.flip then s.filename00Itr else s.filename01Itr
      let fs := fs.write view (File.binary [])
      let fs := fs.write restartItrF0 (File.ascii itr (printfE s.fscale))
      let fs := VecView s.x view fs
      let fs := VecView s.xPhys view fs
      let fs := VecView (VecCopy mma.xo1 xo1) view fs
      let fs := VecView (VecCopy mma.xo2 xo2) view fs
      let fs := VecView (VecCopy mma.U U) view fs
      let fs := VecView (VecCopy mma.L L) view fs
      let fs := VecView s.xPassive0 view fs
      let fs := VecView s.xPassive1 view fs
      let fs := VecView s.xPassive2 view fs
      let fs := VecView s.xPassive3 view fs
      let fs := VecView s.nodeDensity view fs
      let fs := VecView s.nodeAddingCounts view fs
      some (0, s, fs)
    | _, _, _, _ => none

/-! ## Notions used to state the checkpoint properties -/

/-- The four checkpoint file names as `AllocateMMAwithRestart` assigns them from
the working directory `w`. -/
def RestartFilenames (w : String) (s : State) : Prop :=
  s.filename00 = w ++ "/Restart00.dat" ∧ s.filename00Itr = w ++ "/Restart00_itr_f0.dat" ∧
    s.filename01 = w ++ "/Restart01.dat" ∧ s.filename01Itr = w ++ "/Restart01_itr_f0.dat"

/-- An object on which `AllocateMMAwithRestart` has run with restart enabled:
the flag is set, the file names are assigned, the history vectors exist. -/
def RestartReady (w : String) (s : State) : Prop :=
  s.restart = true ∧ RestartFilenames w s ∧
    s.xo1.isSome = true ∧ s.xo2.isSome = true ∧ s.U.isSome = true ∧ s.L.isSome = true

/-- The binary container of the slot that the flag `flip` designates: the one a
write that left the flag at this value has written (`Restart00.dat` for
`flip == false`, `Restart01.dat` for `flip == true`). -/
def State.container (s : State) : String :=
  if !s.flip then s.filename00 else s.filename01

/-- The sidecar file of the slot that the flag `flip` designates. -/
def State.sidecar (s : State) : String :=
  if !s.flip then s.filename00Itr else s.filename01Itr

/-- The twelve vectors of a checkpoint, in the order the specification lists
them, for the object `s` and the history `mma` handed out by the optimizer. -/
def checkpointVectors (s : State) (mma : MMARestart) : List (List PetscScalar) :=
  [s.x.vals, s.xPhys.vals, mma.xo1, mma.xo2, mma.U, mma.L,
   s.xPassive0.vals, s.xPassive1.vals, s.xPassive2.vals, s.xPassive3.vals,
   s.nodeDensity.vals, s.nodeAddingCounts.vals]

/-- The object after a successful `WriteRestartFiles`: the history vectors hold
the optimizer's history and the flag is flipped. -/
def State.afterWrite (s : State) (mma : MMARestart) (xo1 xo2 U L : Vec) : State :=
  { s with xo1 := some (VecCopy mma.xo1 xo1), xo2 := some (VecCopy mma.xo2 xo2),
           U := some (VecCopy mma.U U), L := some (VecCopy mma.L L), flip := !s.flip }

/-! ## Notions used to state the resume properties -/

/-- The local `restartFileVec`: the `-restartFileVec` option, or the empty path
when the option is not given. -/
def RestartOptions.vecPath (o : RestartOptions) : String := o.restartFileVec.getD ""

/-- The local `restartFileItr`. -/
def RestartOptions.itrPath (o : RestartOptions) : String := o.restartFileItr.getD ""

/-- The resume decision as the specification words it: restart is enabled, the
configured vector container exists and the configured iteration sidecar
exists. -/
def resumes (o : RestartOptions) (fs : FS) : Bool :=
  o.restart.getD true && fexists fs o.vecPath && fexists fs o.itrPath

/-- The object after the part of `AllocateMMAwithRestart` that every path runs:
flags set, history vectors created when restart is enabled, file names
assigned. -/
def State.prepared (o : RestartOptions) (s : State) : State :=
  { s with
    restart := o.restart.getD true
    flip := true
    xo1 := if o.restart.getD true then some (VecDuplicate s.x) else s.xo1
    xo2 := if o.restart.getD true then some (VecDuplicate s.x) else s.xo2
    U := if o.restart.getD true then some (VecDuplicate s.x) else s.U
    L := if o.restart.getD true then some (VecDuplicate s.x) else s.L
    filename00 := o.workdir.getD "./" ++ "/Restart00.dat"
    filename00Itr := o.workdir.getD "./" ++ "/Restart00_itr_f0.dat"
    filename01 := o.workdir.getD "./" ++ "/Restart01.dat"
    filename01Itr := o.workdir.getD "./" ++ "/Restart01_itr_f0.dat" }

/-- The object after the resume branch has loaded the six vectors `x`, `xPhys`,
`xo1`, `xo2`, `U`, `L` and the scale factor. -/
def State.resumed (o : RestartOptions) (s : State)
    (x xPhys xo1 xo2 U L : List PetscScalar) (fscale : PetscScalar) : State :=
  { s.prepared o with
    x := { layout := s.x.layout, vals := x }
    xPhys := { layout := s.xPhys.layout, vals := xPhys }
    xo1 := some { layout := s.x.layout, vals := xo1 }
    xo2 := some { layout := s.x.layout, vals := xo2 }
    U := some { layout := s.x.layout, vals := U }
    L := some { layout := s.x.layout, vals := L }
    fscale := fscale }

/-- The coefficient arrays `a`, `c`, `d` with which an optimizer was constructed. -/
def MMA.a : MMA → List PetscScalar
  | MMA.fromDesign _ _ _ a _ _ => a
  | MMA.fromHistory _ _ _ _ _ _ _ a _ _ => a

def MMA.c : MMA → List PetscScalar
  | MMA.fromDesign _ _ _ _ c _ => c
  | MMA.fromHistory _ _ _ _ _ _ _ _ c _ => c

def MMA.d : MMA → List PetscScalar
  | MMA.fromDesign _ _ _ _ _ d => d
  | MMA.fromHistory _ _ _ _ _ _ _ _ _ d => d

/-! ## Concrete inputs used to exercise the theorems -/

/-- The mesh that `SetUpMESH` builds from the 3D elasticity defaults when the
node grid is split over 2 x 1 x 2 ranks. -/
def meshExample : MeshState :=
  { defaults3D Physics.elasticity with
    dx := some (1 / 32), dy := some (1 / 32), dz := some (1 / 32)
    da_nodes := some
      { M := 65, N := 33, P := 33, dof := 3, stencilwidth := 1,
        lx := [33, 32], ly := [33], lz := [17, 16],
        coordinates := some { xmin := some 0, xmax := some 2, ymin := some 0, ymax := some 1,
                              zmin := some 0, zmax := some 1 } }
    da_elem := some
      { M := 64, N := 32, P := 32, dof := 1, stencilwidth := 0,
        lx := [32, 32], ly := [32], lz := [16, 16],
        coordinates := some { xmin := some (1 / 64), xmax := some (127 / 64),
                              ymin := some (1 / 64), ymax := some (63 / 64),
                              zmin := some (1 / 64), zmax := some (63 / 64) } } }

/-- A 3 x 2 x 2 node grid on one rank. -/
def tinyNodes : DMDA :=
  { M := 3, N := 2, P := 2, dof := 1, stencilwidth := 1, lx := [3], ly := [2], lz := [2],
    coordinates := none }

/-- The 2 x 1 x 1 element grid of `tinyNodes`. -/
def tinyElem : DMDA :=
  { M := 2, N := 1, P := 1, dof := 1, stencilwidth := 0, lx := [2], ly := [1], lz := [1],
    coordinates := none }

/-- A vector on the two elements of `tinyElem`. -/
def elemVec (a b : PetscScalar) : Vec := { layout := tinyElem, vals := [a, b] }

/-- A vector on the twelve nodes of `tinyNodes`, all entries equal. -/
def nodeVec (a : PetscScalar) : Vec := { layout := tinyNodes, vals := List.replicate 12 a }

/-- An object in the middle of a run in the working directory `./`, with one
constraint, restart enabled, and a scale factor of eight significant digits. -/
def runState : State :=
  { m := 1, restart := true, flip := true, fscale := 12345678,
    x := elemVec (1 / 2) (1 / 4), xTilde := elemVec (1 / 2) (1 / 4),
    xPhys := elemVec (3 / 4) (1 / 8),
    dfdx := elemVec 0 0, dgdx := [elemVec 0 0], gx := [0],
    xold := elemVec (1 / 2) (1 / 2), xmin := elemVec 0 0, xmax := elemVec 1 1,
    xo1 := some (elemVec 0 0), xo2 := some (elemVec 0 0),
    U := some (elemVec 0 0), L := some (elemVec 0 0),
    xPassive0 := elemVec 1 0, xPassive1 := elemVec 0 1, xPassive2 := elemVec 0 0,
    xPassive3 := elemVec 0 0, nodeDensity := nodeVec (1 / 2), nodeAddingCounts := nodeVec 4,
    filename00 := ".//Restart00.dat", filename00Itr := ".//Restart00_itr_f0.dat",
    filename01 := ".//Restart01.dat", filename01Itr := ".//Restart01_itr_f0.dat" }

/-- The history an optimizer hands out in the middle of a run. -/
def runHistory : MMARestart :=
  { xo1 := [2 / 5, 1 / 5], xo2 := [3 / 10, 3 / 10], U := [1, 1], L := [0, 0] }

/-- A file system without any file. -/
def emptyFS : FS := fun _ => none

/-- The object of a new process after `SetUpOPT` on the same grids, with the
volume fraction 0.12: no history vectors yet, no file names yet. -/
def freshState : State :=
  { m := 1, restart := true, flip := false, fscale := 1,
    x := elemVec (3 / 25) (3 / 25), xTilde := elemVec (3 / 25) (3 / 25),
    xPhys := elemVec (3 / 25) (3 / 25),
    dfdx := elemVec 0 0, dgdx := [elemVec 0 0], gx := [0],
    xold := elemVec (3 / 25) (3 / 25), xmin := elemVec 0 0, xmax := elemVec 0 0,
    xo1 := none, xo2 := none, U := none, L := none,
    xPassive0 := elemVec 0 0, xPassive1 := elemVec 0 0, xPassive2 := elemVec 0 0,
    xPassive3 := elemVec 0 0, nodeDensity := nodeVec 0, nodeAddingCounts := nodeVec 0,
    filename00 := "", filename00Itr := "", filename01 := "", filename01Itr := "" }

/-- The files on disk after `WriteRestartFiles` ran once on `runState` at
iteration 17 with the history `runHistory`. -/
def checkpointFS : FS :=
  (emptyFS.write ".//Restart00_itr_f0.dat" (File.ascii 17 12345680)).write ".//Restart00.dat"
    (File.binary (checkpointVectors runState runHistory))

/-- The options of a run that resumes from slot 00 of the working directory. -/
def resumeOptions : RestartOptions :=
  { restartFileVec := some ".//Restart00.dat", restartFileItr := some ".//Restart00_itr_f0.dat" }

/-! ## Allocation of the design state: `SetUpOPT`, and the constructor path -/

/-- The call `VecSet (v, a)`: every entry of `v` becomes `a`. -/
def VecSet (v : Vec) (a : PetscScalar) : Vec :=
  { v with vals := List.replicate v.vals.length a }

/-- The number of entries of a global vector of a grid: points times degrees of
freedom per point. -/
def DMDA.globalSize (da : DMDA) : Nat :=
  da.M.toNat * da.N.toNat * da.P.toNat * da.dof.toNat

/-- The call `DMCreateGlobalVector (da, &v)`: new storage with the layout of the
grid `da` (PETSc zero-fills new storage). -/
def DMCreateGlobalVector (da : DMDA) : Vec :=
  { layout := da, vals := List.replicate da.globalSize 0 }

/-- The call `VecDuplicateVecs (v, m, &V)`: `m` duplicates of `v`. -/
def VecDuplicateVecs (v : Vec) (m : Nat) : List Vec :=
  List.replicate m (VecDuplicate v)

/-- The scalar members of `TopOpt` that `SetUpOPT` reads from the options.
`rmin` is `none` when the expression that `SetUp` assigns to it is not a number
(an infinity or a NaN, after a division by zero). -/
structure OptParams where
  Emin : PetscScalar
  Emax : PetscScalar
  nu : PetscScalar
  volfrac : PetscScalar
  penal : PetscScalar
  rmin : Option PetscScalar
  maxItr : PetscInt
  filter : PetscInt
  Xmin : PetscScalar
  Xmax : PetscScalar
  movlim : PetscScalar
  projectionFilter : Bool
  beta : PetscScalar
  betaFinal : PetscScalar
  eta : PetscScalar
  deriving DecidableEq, Repr

/-- The command-line options read by `SetUpOPT`, `-penal` apart, which is among
the options of `SetUpMESH`. -/
structure OptOptions where
  Emin : Option PetscScalar := none
  Emax : Option PetscScalar := none
  nu : Option PetscScalar := none
  volfrac : Option PetscScalar := none
  rmin : Option PetscScalar := none
  maxItr : Option PetscInt := none
  filter : Option PetscInt := none
  Xmin : Option PetscScalar := none
  Xmax : Option PetscScalar := none
  movlim : Option PetscScalar := none
  projectionFilter : Option Bool := none
  beta : Option PetscScalar := none
  betaFinal : Option PetscScalar := none
  eta : Option PetscScalar := none
  deriving DecidableEq, Repr

/-- The members of the object that `SetUpOPT` does not assign, as they are when
it runs, and `heap`, the content of the storage that `new PetscScalar[m]`
returns. `flip` and `fscale` have no initial value in the source. -/
structure Untouched where
  restart : Bool
  flip : Bool
  fscale : PetscScalar
  xo1 : Option Vec := none
  xo2 : Option Vec := none
  U : Option Vec := none
  L : Option Vec := none
  filename00 : String := ""
  filename00Itr : String := ""
  filename01 : String := ""
  filename01Itr : String := ""
  heap : Nat → PetscScalar

/-- What `SetUpOPT` leaves behind: the scalar members, the number `n` of design
variables, and the object with its vectors. -/
structure Constructed where
  params : OptParams
  n : PetscInt
  state : State
  deriving DecidableEq, Repr

/-- The option-reading part of `SetUpOPT`, followed by
`if (filter == 0) { Xmin = 0.001; }`. -/
def readOptOptions (mo : MeshOptions) (o : OptOptions) (p : OptParams) : OptParams :=
  let p : OptParams :=
    { Emin := o.Emin.getD p.Emin
      Emax := o.Emax.getD p.Emax
      nu := o.nu.getD p.nu
      volfrac := o.volfrac.getD p.volfrac
      penal := mo.penal.getD p.penal
      rmin := match o.rmin with
        | some r => some r
        | none => p.rmin
      maxItr := o.maxItr.getD p.maxItr
      filter := o.filter.getD p.filter
      Xmin := o.Xmin.getD p.Xmin
      Xmax := o.Xmax.getD p.Xmax
      movlim := o.movlim.getD p.movlim
      projectionFilter := o.projectionFilter.getD p.projectionFilter
      beta := o.beta.getD p.beta
      betaFinal := o.betaFinal.getD p.betaFinal
      eta := o.eta.getD p.eta }
  if p.filter = 0 then { p with Xmin := 1 / 1000 } else p

/-- The function `TopOpt::SetUpOPT` on an object with `m` constraints whose
grids are `da_nodes` and `da_elem`.  `none` when a grid is null:
`DMCreateGlobalVector` then fails and `CHKERRQ` returns. -/
def SetUpOPT (mo : MeshOptions) (o : OptOptions) (da_nodes da_elem : Option DMDA) (m : Nat)
    (p : OptParams) (u : Untouched) : Option Constructed :=
  match da_elem, da_nodes with
  | some da_elem, some da_nodes =>
    let xPhys := DMCreateGlobalVector da_elem
    let nodeDensity := DMCreateGlobalVector da_nodes
    let n := VecGetSize xPhys
    let p := readOptOptions mo o p
    let gx := (List.range m).map u.heap
    let x := VecDuplicate xPhys
    let xTilde := VecDuplicate xPhys
    let x := VecSet x p.volfrac
    let xTilde := VecSet xTilde p.volfrac
    let xPhys := VecSet xPhys p.volfrac
    let dfdx := VecDuplicate x
    let dgdx := VecDuplicateVecs x m
    let dfdx := VecSet dfdx 0
    let dgdx := (List.range m).map fun i => VecSet (dgdx.getD i (VecDuplicate x)) 0
    let xmin := VecDuplicate x
    let xmax := VecDuplicate x
    let xold := VecDuplicate x
    let xold := VecSet xold p.volfrac
    let xPassive0 := VecDuplicate xPhys
    let xPassive1 := VecDuplicate xPhys
    let xPassive2 := VecDuplicate xPhys
    let xPassive3 := VecDuplicate xPhys
    let nodeAddingCounts := VecDuplicate nodeDensity
    let xPassive0 := VecSet xPassive0 0
    let xPassive1 := VecSet xPassive1 0
    let xPassive2 := VecSet xPassive2 0
    let xPassive3 := VecSet xPassive3 0
    let nodeDensity := VecSet nodeDensity 0
    let nodeAddingCounts := VecSet nodeAddingCounts 0
    some
      { params := p, n := n,
        state :=
          { m := m, restart := u.restart, flip := u.flip, fscale := u.fscale,
            x := x, xTilde := xTilde, xPhys := xPhys, dfdx := dfdx, dgdx := dgdx, gx := gx,
            xold := xold, xmin := xmin, xmax := xmax,
            xo1 := u.xo1, xo2 := u.xo2, U := u.U, L := u.L,
            xPassive0 := xPassive0, xPassive1 := xPassive1, xPassive2 := xPassive2,
            xPassive3 := xPassive3, nodeDensity := nodeDensity,
            nodeAddingCounts := nodeAddingCounts,
            filename00 := u.filename00, filename00Itr := u.filename00Itr,
            filename01 := u.filename01, filename01Itr := u.filename01Itr } }
  | _, _ => none

/-- The default of `volfrac` that `SetUp` assigns for each build variant. -/
def defaultVolfrac (DIM : Dim) (PHYSICS : Physics) : PetscScalar :=
  match DIM, PHYSICS with
  | Dim.two, Physics.elasticity => 45 / 100
  | Dim.two, Physics.compliant => 3 / 10
  | Dim.two, Physics.heat => 45 / 100
  | Dim.three, Physics.elasticity => 12 / 100
  | Dim.three, Physics.compliant => 3 / 10
  | Dim.three, Physics.heat => 3 / 10

/-- The node counts, bounding box, `penal` and `nlvls` that `SetUp` assigns before
it calls `SetUpMESH`.  With `DIM == 2` the members `nxyz[2]`, `xc[4]`, `xc[5]`
are not assigned and keep the value they happen to have. -/
def SetUpDefaults (DIM : Dim) (PHYSICS : Physics) (s0 : MeshState) : MeshState :=
  match DIM with
  | Dim.three =>
    { defaults3D PHYSICS with
      dx := s0.dx, dy := s0.dy, dz := s0.dz, da_nodes := s0.da_nodes, da_elem := s0.da_elem }
  | Dim.two =>
    match PHYSICS with
    | Physics.elasticity =>
      { s0 with nxyz0 := 241, nxyz1 := 121, xc0 := 0, xc1 := 2, xc2 := 0, xc3 := 1,
                penal := 3, nlvls := 4 }
    | Physics.compliant =>
      { s0 with nxyz0 := 241, nxyz1 := 121, xc0 := 0, xc1 := 80, xc2 := 0, xc3 := 40,
                penal := 3, nlvls := 4 }
    | Physics.heat =>
      { s0 with nxyz0 := 201, nxyz1 := 249, xc0 := 0, xc1 := 50, xc2 := 0, xc3 := 62,
                penal := 3, nlvls := 4 }

/-- The value of a `PetscScalar` expression that may divide by zero: a number,
an infinity or a NaN. -/
inductive Extended where
  | finite (q : PetscScalar)
  | posInf
  | negInf
  | nan
  deriving DecidableEq, Repr

/-- The comparison `a < b` of doubles: false as soon as one side is a NaN. -/
def Extended.lt : Extended → Extended → Bool
  | Extended.finite a, Extended.finite b => decide (a < b)
  | Extended.finite _, Extended.posInf => true
  | Extended.negInf, Extended.finite _ => true
  | Extended.negInf, Extended.posInf => true
  | _, _ => false

/-- The macro `PetscMax (a, b)`, that is `(((a) < (b)) ? (b) : (a))`. -/
def PetscMax (a b : Extended) : Extended := if a.lt b then b else a

/-- The product `k * v` for a positive constant `k`. -/
def Extended.scale (k : PetscScalar) : Extended → Extended
  | Extended.finite q => Extended.finite (k * q)
  | v => v

/-- The number that the value is, `none` for an infinity or a NaN. -/
def Extended.toOption : Extended → Option PetscScalar
  | Extended.finite q => some q
  | _ => none

/-- A quotient `a / (n - 1)` of the `rmin` expression, `n - 1` being a `PetscInt`
subtraction.  A division by zero gives the infinity with the sign of `a`, or a
NaN for `a = 0`. -/
def perCell (a : PetscScalar) (n : PetscInt) : Extended :=
  if minusOne n = 0 then
    if 0 < a then Extended.posInf else if a < 0 then Extended.negInf else Extended.nan
  else Extended.finite (a / ((minusOne n : Int) : ℚ))

/-- The scalar members as `SetUp` assigns them, for the node counts and bounding
box `s` that it has assigned before. -/
def SetUpParams (DIM : Dim) (PHYSICS : Physics) (s : MeshState) : OptParams :=
  { Emin := match PHYSICS with
      | Physics.heat => 1 / 1000
      | _ => 1 / 1000000000
    Emax := 1
    nu := 3 / 10
    volfrac := defaultVolfrac DIM PHYSICS
    penal := 3
    rmin :=
      let k : PetscScalar := match DIM, PHYSICS with
        | Dim.two, Physics.elasticity => 6
        | _, _ => 3
      (Extended.scale k
        (PetscMax (perCell s.xc1 s.nxyz0)
          (PetscMax (perCell s.xc3 s.nxyz1) (perCell s.xc5 s.nxyz2)))).toOption
    maxItr := 400
    filter := 1
    Xmin := 0
    Xmax := 1
    movlim := 2 / 10
    projectionFilter := false
    beta := 1 / 10
    betaFinal := 48
    eta := 0 }

/-- What the construction of a `TopOpt` object leads to: `exit (0)` inside
`SetUpMESH`, after the diagnostic naming an axis, its node count and
`nlvls - 1`, with the mesh members as they are at that moment; a failed
`SetUpOPT`; or a constructed object. -/
inductive SetUpResult where
  | exited (axis : Axis) (nodes : PetscInt) (halvings : PetscInt) (members : MeshState)
  | failed (mesh : MeshState)
  | returned (mesh : MeshState) (c : Constructed)

/-- The function `TopOpt::SetUp`: defaults, then `SetUpMESH`, then `SetUpOPT`.
`s0` and `u` are the members when it is entered. -/
def SetUp (DIM : Dim) (PHYSICS : Physics) (mo : MeshOptions) (oo : OptOptions)
    (LxCorrect LyCorrect LzCorrect : List PetscInt) (m : Nat) (s0 : MeshState)
    (u : Untouched) : SetUpResult :=
  let s := SetUpDefaults DIM PHYSICS s0
  let p := SetUpParams DIM PHYSICS s
  let u := { u with restart := true }
  match SetUpMESH DIM PHYSICS mo LxCorrect LyCorrect LzCorrect s with
  | MeshResult.exited axis nodes halvings =>
    SetUpResult.exited axis nodes halvings (readMeshOptions DIM mo s)
  | MeshResult.returned mesh =>
    match SetUpOPT mo oo mesh.da_nodes mesh.da_elem m { p with penal := mesh.penal } u with
    | some c => SetUpResult.returned mesh c
    | none => SetUpResult.failed mesh

/-- The function `TopOpt::Init`, which the constructors call after they have
assigned `m`: the handles are nulled, then `SetUp` runs. -/
def Init (DIM : Dim) (PHYSICS : Physics) (mo : MeshOptions) (oo : OptOptions)
    (LxCorrect LyCorrect LzCorrect : List PetscInt) (m : Nat) (s0 : MeshState)
    (u : Untouched) : SetUpResult :=
  SetUp DIM PHYSICS mo oo LxCorrect LyCorrect LzCorrect m
    { s0 with da_nodes := none, da_elem := none }
    { u with xo1 := none, xo2 := none, U := none, L := none }

/-- The position that PETSc's `DMDASetUniformCoordinates` gives to point `i` of an
axis with `M` points and the bounds `lo`, `hi` (no periodic boundary):
`lo + i * (hi - lo) / (M - 1)`; `none` when that divides by zero. -/
def uniformCoordinate (lo hi : PetscScalar) (M : PetscInt) (i : Nat) : Option PetscScalar :=
  if M - 1 = 0 then none else some (lo + (i : ℚ) * ((hi - lo) / ((M - 1 : Int) : ℚ)))

/-! ## Notions used to state the mesh and allocation properties -/

/-- The node count of an axis. -/
def MeshState.nodes (s : MeshState) : Axis → PetscInt
  | Axis.X => s.nxyz0
  | Axis.Y => s.nxyz1
  | Axis.Z => s.nxyz2

/-- The test of `SetUpMESH` fails for the node counts and level count of `s`: the
condition of the `if` of some axis of the build holds. -/
def TestFails (DIM : Dim) (s : MeshState) : Prop :=
  mgIncompatible s.nxyz0 s.nlvls = true ∨ mgIncompatible s.nxyz1 s.nlvls = true ∨
    (DIM = Dim.three ∧ mgIncompatible s.nxyz2 s.nlvls = true)

/-- The axis `a` is the first one, in the order x, y, z, whose condition holds. -/
def FirstFailing (DIM : Dim) (s : MeshState) : Axis → Prop
  | Axis.X => mgIncompatible s.nxyz0 s.nlvls = true
  | Axis.Y => mgIncompatible s.nxyz0 s.nlvls = false ∧ mgIncompatible s.nxyz1 s.nlvls = true
  | Axis.Z => DIM = Dim.three ∧ mgIncompatible s.nxyz0 s.nlvls = false ∧
      mgIncompatible s.nxyz1 s.nlvls = false ∧ mgIncompatible s.nxyz2 s.nlvls = true

/-- Every entry of the vector `v` equals `a`. -/
def Vec.AllEq (v : Vec) (a : PetscScalar) : Prop := ∀ e ∈ v.vals, e = a

/-- The vector on the grid `da` whose every entry is `a`. -/
def constVec (da : DMDA) (a : PetscScalar) : Vec :=
  { layout := da, vals := List.replicate da.globalSize a }

/-- The options of a very small 3D heat-conduction run: 3 x 2 x 2 nodes and a
single multigrid level. -/
def tinyOptions : MeshOptions :=
  { nx := some 3, ny := some 2, nz := some 2, nlvls := some 1 }

/-- Members of a new object before `Init` runs. -/
def rawMembers : Untouched :=
  { restart := false, flip := false, fscale := 0, heap := fun _ => 0 }

/-- The node grid that `SetUpMESH` builds for `tinyOptions` on one rank. -/
def builtNodes : DMDA :=
  { M := 3, N := 2, P := 2, dof := 1, stencilwidth := 1, lx := [3], ly := [2], lz := [2],
    coordinates := some { xmin := some 0, xmax := some 50, ymin := some 0, ymax := some 62,
                          zmin := some 0, zmax := some 50 } }

/-- The element grid that `SetUpMESH` builds for `tinyOptions` on one rank. -/
def builtElem : DMDA :=
  { M := 2, N := 1, P := 1, dof := 1, stencilwidth := 0, lx := [2], ly := [1], lz := [1],
    coordinates := some { xmin := some (25 / 2), xmax := some (75 / 2), ymin := some 31,
                          ymax := some 31, zmin := some 25, zmax := some 25 } }

/-- The mesh members after `SetUpMESH` for `tinyOptions`. -/
def builtMesh : MeshState :=
  { nxyz0 := 3, nxyz1 := 2, nxyz2 := 2, xc0 := 0, xc1 := 50, xc2 := 0, xc3 := 62,
    xc4 := 0, xc5 := 50, penal := 3, nlvls := 1,
    dx := some 25, dy := some 62, dz := some 50,
    da_nodes := some builtNodes, da_elem := some builtElem }

/-- The scalar members after `SetUpOPT` for `tinyOptions`, no other option given. -/
def builtParams : OptParams :=
  readOptOptions tinyOptions {}
    { SetUpParams Dim.three Physics.heat (defaults3D Physics.heat) with penal := 3 }

/-- The object that `SetUpOPT` allocates on `builtMesh` with three constraints and
no option given. -/
def builtObject : Constructed :=
  { params := builtParams,
    n := 2,
    state :=
      { m := 3, restart := true, flip := false, fscale := 0,
        x := constVec builtElem (3 / 10), xTilde := constVec builtElem (3 / 10),
        xPhys := constVec builtElem (3 / 10),
        dfdx := constVec builtElem 0,
        dgdx := [constVec builtElem 0, constVec builtElem 0, constVec builtElem 0],
        gx := [0, 0, 0],
        xold := constVec builtElem (3 / 10), xmin := constVec builtElem 0,
        xmax := constVec builtElem 0,
        xo1 := none, xo2 := none, U := none, L := none,
        xPassive0 := constVec builtElem 0, xPassive1 := constVec builtElem 0,
        xPassive2 := constVec builtElem 0, xPassive3 := constVec builtElem 0,
        nodeDensity := constVec builtNodes 0, nodeAddingCounts := constVec builtNodes 0,
        filename00 := "", filename00Itr := "", filename01 := "", filename01Itr := "" } }

/-- The element coordinates of an axis are cell-centred: for the bounding box
`[lo, hi]` and `n` nodes, the spacing `d` is `(hi - lo) / (n - 1)`, the element
grid is given the range `[lo + d/2, hi - d/2]`, its `k`-th point is at
`lo + (k + 1/2) d`, which is the midpoint of the nodes `k` and `k + 1`, and the
spacing of the element points is `d`. -/
def CellCentred (lo hi : PetscScalar) (n : PetscInt) (d elo ehi : Option PetscScalar) : Prop :=
  ∃ dd, d = some dd ∧ dd = (hi - lo) / ((n - 1 : Int) : ℚ) ∧
    elo = some (lo + dd / 2) ∧ ehi = some (hi - dd / 2) ∧
    (∀ k : Nat, uniformCoordinate (lo + dd / 2) (hi - dd / 2) (n - 1) k
      = some (lo + ((k : ℚ) + 1 / 2) * dd)) ∧
    (∀ k : Nat, ∃ a b, uniformCoordinate lo hi n k = some a ∧
      uniformCoordinate lo hi n (k + 1) = some b ∧ lo + ((k : ℚ) + 1 / 2) * dd = (a + b) / 2) ∧
    ((hi - dd / 2) - (lo + dd / 2)) / ((n - 1 - 1 : Int) : ℚ) = dd

/-- A node-grid partition table as the grid allocator hands it out for an axis
with `n` nodes: not empty, every slab with at least one node, `n` nodes in all. -/
def NodePartition (L : List PetscInt) (n : PetscInt) : Prop :=
  L ≠ [] ∧ (∀ v ∈ L, 1 ≤ v) ∧ L.sum = n

/-! ## Theorems: the multigrid test -/

theorem divisor_succ (k : Nat) : divisor ((k : Int) + 1) = ((2 ^ k : Int) : ℚ) := by
  simp [divisor]

/-- The cast of `2^k` is `2^k` up to `2^30`, and the least `PetscInt` beyond. -/
theorem castPetscInt_pow (k : Nat) :
    castPetscInt (((2 ^ k : Int) : ℚ)) = if k ≤ 30 then 2 ^ k else -2147483648 := by
  have hnn : (0 : ℚ) ≤ ((2 ^ k : Int) : ℚ) := by positivity
  have hpos : (0 : Int) < 2 ^ k := by positivity
  simp only [castPetscInt, if_pos hnn, Int.floor_intCast]
  by_cases hk : k ≤ 30
  · have h1 : (2 : Int) ^ k ≤ 2 ^ 30 := pow_le_pow_right₀ (by norm_num) hk
    have h2 : (2 : Int) ^ 30 = 1073741824 := by norm_num
    rw [if_pos hk, if_pos (by omega)]
  · have h1 : (2 : Int) ^ 31 ≤ 2 ^ k := pow_le_pow_right₀ (by norm_num) (by omega)
    have h2 : (2 : Int) ^ 31 = 2147483648 := by norm_num
    rw [if_neg hk, if_neg (by omega)]

theorem levels_eq_succ (nlvls : Int) (h : 1 ≤ nlvls) :
    ∃ k : Nat, nlvls = (k : Int) + 1 := by
  have h1 : (0 : Int) ≤ nlvls - 1 := Int.sub_nonneg_of_le h
  have h2 : (((nlvls - 1 : Int).toNat : Nat) : Int) = nlvls - 1 := Int.toNat_of_nonneg h1
  exact ⟨(nlvls - 1 : Int).toNat, by rw [h2]; exact (Int.sub_add_cancel nlvls 1).symm⟩

/-- With 1 to 31 levels and `n` above the least `PetscInt`, the condition of the
test is false exactly when `2^(nlvls - 1)` divides `n - 1`. -/
theorem mgIncompatible_eq_false_iff (n nlvls : Int) (h : 1 ≤ nlvls) (hu : nlvls ≤ 31)
    (hn : -2147483648 < n) :
    mgIncompatible n nlvls = false ↔ Halvable n nlvls := by
  obtain ⟨k, rfl⟩ := levels_eq_succ nlvls h
  have hu2 : (k : Int) + 1 ≤ 31 := hu
  have hk30 : k ≤ 30 := by omega
  have hd := divisor_succ k
  have hc : castPetscInt (((2 ^ k : Int) : ℚ)) = 2 ^ k := by
    rw [castPetscInt_pow, if_pos hk30]
  have hm : minusOne n = n - 1 := by
    have hn2 : (-2147483648 : Int) < n := hn
    have hn3 : ¬ ((n : Int) - 1 < -2147483648) := by
      intro hlt
      linarith
    unfold minusOne
    rw [if_neg hn3]
  have hk : ((k : Int) + 1 - 1).toNat = k := by simp
  have hne : (2 ^ k : Int) ≠ 0 := by positivity
  have hneq : ((2 ^ k : Int) : ℚ) ≠ 0 := by exact_mod_cast hne
  simp only [mgIncompatible, Halvable, hd, hc, hm, hk, if_neg hne]
  rw [decide_eq_false_iff_not, not_not]
  constructor
  · intro heq
    have h2 : ((n - 1 : Int) : ℚ)
        = ((Int.floor (((n - 1 : Int) : ℚ) / ((2 ^ k : Int) : ℚ)) * 2 ^ k : Int) : ℚ) := by
      push_cast
      push_cast at heq
      rw [heq]
      field_simp
    have h3 : n - 1 = Int.floor (((n - 1 : Int) : ℚ) / ((2 ^ k : Int) : ℚ)) * 2 ^ k := by
      exact_mod_cast h2
    rw [h3]
    exact Int.mul_emod_left _ _
  · intro hmod
    obtain ⟨c, hc2⟩ := Int.dvd_of_emod_eq_zero hmod
    have e1 : ((n - 1 : Int) : ℚ) / ((2 ^ k : Int) : ℚ) = (c : ℚ) := by
      rw [hc2]; push_cast; field_simp
    have e2 : ((n : ℚ) - 1) / ((2 ^ k : Int) : ℚ) = (c : ℚ) := by
      rw [← e1]; push_cast; rfl
    rw [e1, e2, Int.floor_intCast]

theorem mgIncompatible_eq_true_iff (n nlvls : Int) (h : 1 ≤ nlvls) (hu : nlvls ≤ 31)
    (hn : -2147483648 < n) :
    mgIncompatible n nlvls = true ↔ ¬ Halvable n nlvls := by
  rw [← mgIncompatible_eq_false_iff n nlvls h hu hn]
  cases mgIncompatible n nlvls <;> simp

theorem floor_sign (m : Int) (d : ℚ) (hd : 0 < d) :
    (m < 0 → Int.floor ((m : ℚ) / d) < 0) ∧ (m ≤ 0 → Int.floor ((m : ℚ) / d) ≤ 0) ∧
      (0 ≤ m → 0 ≤ Int.floor ((m : ℚ) / d)) := by
  refine ⟨?_, ?_, ?_⟩
  · intro hm
    have h1 : ((m : ℚ) / d) < 0 := div_neg_of_neg_of_pos (by exact_mod_cast hm) hd
    have h2 : ¬ (0 ≤ Int.floor ((m : ℚ) / d)) := by
      rw [Int.floor_nonneg]
      exact not_le.mpr h1
    exact not_le.mp h2
  · intro hm
    have h1 : ((m : ℚ) / d) ≤ 0 := div_nonpos_of_nonpos_of_nonneg (by exact_mod_cast hm) hd.le
    have h2 : ((Int.floor ((m : ℚ) / d) : Int) : ℚ) ≤ 0 := le_trans (Int.floor_le _) h1
    exact_mod_cast h2
  · intro hm
    rw [Int.floor_nonneg]
    exact div_nonneg (by exact_mod_cast hm) hd.le

theorem minusOne_cases (n : Int) :
    (n - 1 < -2147483648 ∧ minusOne n = n - 1 + 4294967296) ∨
      (-2147483648 ≤ n - 1 ∧ minusOne n = n - 1) := by
  by_cases h : n - 1 < -2147483648
  · exact Or.inl ⟨h, by unfold minusOne; exact if_pos h⟩
  · exact Or.inr ⟨not_lt.mp h, by unfold minusOne; exact if_neg h⟩

/-- With 32 levels or more the cast of `divisor` overflows, and the test lets only
`n = 1` pass. -/
theorem mgIncompatible_wide (n : Int) (k : Nat) (hk : ¬ k ≤ 30) :
    mgIncompatible n ((k : Int) + 1) = false ↔ n = 1 := by
  have hd := divisor_succ k
  have hpos : (0 : ℚ) < ((2 ^ k : Int) : ℚ) := by positivity
  have hc : castPetscInt (((2 ^ k : Int) : ℚ)) = -2147483648 := by
    rw [castPetscInt_pow, if_neg hk]
  have hmin : (-2147483648 : Int) ≠ 0 := by decide
  simp only [mgIncompatible, hd, hc, if_neg hmin]
  rw [decide_eq_false_iff_not, not_not]
  constructor
  · intro hf
    obtain ⟨hneg, hnp, hnn⟩ := floor_sign (minusOne n) (((2 ^ k : Int) : ℚ)) hpos
    generalize Int.floor (((minusOne n : Int) : ℚ) / ((2 ^ k : Int) : ℚ)) = z
      at hf hneg hnp hnn
    have h2 : ((n - 1 : Int) : ℚ) = ((-z * 2147483648 : Int) : ℚ) := by
      push_cast
      push_cast at hf
      rw [hf]
      field_simp
      ring
    have h3 : (n : Int) - 1 = -z * 2147483648 := by exact_mod_cast h2
    rcases minusOne_cases n with ⟨hlt, hm⟩ | ⟨hge, hm⟩
    · rw [hm] at hneg hnp hnn
      omega
    · rw [hm] at hneg hnp hnn
      omega
  · rintro rfl
    have hm : minusOne 1 = 0 := by decide
    rw [hm]
    simp

/-- Whatever the test lets pass, with any level count of at least 1, satisfies the
divisibility. -/
theorem mgIncompatible_false_halvable (n nlvls : Int) (h : 1 ≤ nlvls)
    (hf : mgIncompatible n nlvls = false) : Halvable n nlvls := by
  obtain ⟨k, rfl⟩ := levels_eq_succ nlvls h
  have hd := divisor_succ k
  have hk : ((k : Int) + 1 - 1).toNat = k := by simp
  have hne : (2 ^ k : Int) ≠ 0 := by positivity
  have hneq : ((2 ^ k : Int) : ℚ) ≠ 0 := by exact_mod_cast hne
  by_cases hk30 : k ≤ 30
  · have hc : castPetscInt (((2 ^ k : Int) : ℚ)) = 2 ^ k := by
      rw [castPetscInt_pow, if_pos hk30]
    simp only [mgIncompatible, hd, hc, if_neg hne] at hf
    rw [decide_eq_false_iff_not, not_not] at hf
    have h2 : ((n - 1 : Int) : ℚ)
        = ((Int.floor (((minusOne n : Int) : ℚ) / ((2 ^ k : Int) : ℚ)) * 2 ^ k : Int) : ℚ) := by
      push_cast
      push_cast at hf
      rw [hf]
      field_simp
    have h3 : n - 1 = Int.floor (((minusOne n : Int) : ℚ) / ((2 ^ k : Int) : ℚ)) * 2 ^ k := by
      exact_mod_cast h2
    simp only [Halvable, hk]
    rw [h3]
    exact Int.mul_emod_left _ _
  · have h1 : n = 1 := (mgIncompatible_wide n k hk30).1 hf
    subst h1
    simp [Halvable]

theorem minusOne_of_gt (n : Int) (hn : -2147483648 < n) : minusOne n = n - 1 := by
  rcases minusOne_cases n with ⟨hlt, -⟩ | ⟨-, hm⟩
  · omega
  · exact hm

theorem castPetscInt_small (q : ℚ) (h0 : 0 < q) (h1 : q < 1) : castPetscInt q = 0 := by
  have hf : Int.floor q = 0 := by
    rw [Int.floor_eq_iff]
    exact ⟨by exact_mod_cast h0.le, by simpa using h1⟩
  simp [castPetscInt, h0.le, hf]

theorem divisor_nonpos (nlvls : Int) (h : nlvls ≤ 0) :
    0 < divisor nlvls ∧ divisor nlvls < 1 := by
  unfold divisor
  refine ⟨by positivity, ?_⟩
  exact zpow_lt_one_of_neg₀ (by norm_num) (by omega)

/-- With a level count `≤ 0` the right-hand side divides by zero: 65 nodes are
rejected with `-1016` levels, and let pass with `-1017`, where the left-hand
side `64 * 2^1018` overflows to the same infinity; 1 node is rejected (NaN). -/
theorem nonpositive_levels_examples :
    mgIncompatible 65 (-1016) = true ∧ mgIncompatible 65 (-1017) = false ∧
      mgIncompatible 1 (-2000) = true := by
  have hm : minusOne 65 = 64 := by decide
  have hm1 : minusOne 1 = 0 := by decide
  refine ⟨?_, ?_, ?_⟩
  · obtain ⟨h0, h1⟩ := divisor_nonpos (-1016) (by decide)
    have hc := castPetscInt_small _ h0 h1
    simp only [mgIncompatible, hc, hm, if_true]
    simp only [divisor]
    norm_num
  · obtain ⟨h0, h1⟩ := divisor_nonpos (-1017) (by decide)
    have hc := castPetscInt_small _ h0 h1
    simp only [mgIncompatible, hc, hm, if_true]
    simp only [divisor]
    norm_num
  · obtain ⟨h0, h1⟩ := divisor_nonpos (-2000) (by decide)
    have hc := castPetscInt_small _ h0 h1
    simp only [mgIncompatible, hc, hm1, if_true]
    simp only [divisor]
    norm_num

/-- The test rejects the least `PetscInt` as a node count, whatever the level
count: after a test that passed, `n - 1` does not wrap around. -/
theorem mgIncompatible_least (nlvls : Int) : mgIncompatible (-2147483648) nlvls = true := by
  have hm : minusOne (-2147483648) = 2147483647 := by decide
  by_cases h : 1 ≤ nlvls
  · cases hf : mgIncompatible (-2147483648) nlvls with
    | true => rfl
    | false =>
      exfalso
      obtain ⟨k, rfl⟩ := levels_eq_succ nlvls h
      by_cases hk30 : k ≤ 30
      · have hd := divisor_succ k
        have hne : (2 ^ k : Int) ≠ 0 := by positivity
        have hpos : (0 : ℚ) < ((2 ^ k : Int) : ℚ) := by positivity
        have hc : castPetscInt (((2 ^ k : Int) : ℚ)) = 2 ^ k := by
          rw [castPetscInt_pow, if_pos hk30]
        simp only [mgIncompatible, hd, hc, hm, if_neg hne] at hf
        rw [decide_eq_false_iff_not, not_not] at hf
        have h1 : (0 : ℚ)
            ≤ ((Int.floor (((2147483647 : Int) : ℚ) / ((2 ^ k : Int) : ℚ)) : Int) : ℚ) := by
          exact_mod_cast (floor_sign 2147483647 _ hpos).2.2 (by decide)
        have h2 : (((-2147483648 : Int) : ℚ) - 1) / ((2 ^ k : Int) : ℚ) < 0 :=
          div_neg_of_neg_of_pos (by norm_num) hpos
        rw [hf] at h1
        exact absurd h1 (not_le.mpr h2)
      · have h1 := (mgIncompatible_wide (-2147483648) k hk30).1 hf
        exact absurd h1 (by decide)
  · obtain ⟨h0, h1⟩ := divisor_nonpos nlvls (by omega)
    have hc := castPetscInt_small _ h0 h1
    have hq : (0 : ℚ) ≤ ((2147483647 : Int) : ℚ) / divisor nlvls :=
      div_nonneg (by norm_num) h0.le
    have hp : (0 : ℚ) < (2 : ℚ) ^ 1024 := by positivity
    simp only [mgIncompatible, hc, hm, if_true]
    rw [Bool.not_eq_true', decide_eq_false_iff_not]
    rintro (⟨-, h2⟩ | ⟨h2, -⟩)
    · exact absurd h2 (by decide)
    · linarith

theorem mgCheck_eq_none_halvable (DIM : Dim) (nx ny nz nlvls : Int) (h : 1 ≤ nlvls)
    (hc : mgCheck DIM nx ny nz nlvls = none) :
    Halvable nx nlvls ∧ Halvable ny nlvls ∧ (DIM = Dim.three → Halvable nz nlvls) := by
  cases hx : mgIncompatible nx nlvls with
  | true => simp [mgCheck, hx] at hc
  | false =>
    cases hy : mgIncompatible ny nlvls with
    | true => simp [mgCheck, hx, hy] at hc
    | false =>
      refine ⟨mgIncompatible_false_halvable nx nlvls h hx,
        mgIncompatible_false_halvable ny nlvls h hy, ?_⟩
      intro hd
      subst hd
      cases hz : mgIncompatible nz nlvls with
      | true => simp [mgCheck, hx, hy, hz] at hc
      | false => exact mgIncompatible_false_halvable nz nlvls h hz

theorem SetUpMESH_returned_iff (DIM : Dim) (PHYSICS : Physics) (o : MeshOptions)
    (LxCorrect LyCorrect LzCorrect : List PetscInt) (s0 : MeshState) :
    (∃ t, SetUpMESH DIM PHYSICS o LxCorrect LyCorrect LzCorrect s0 = MeshResult.returned t) ↔
      mgCheck DIM (readMeshOptions DIM o s0).nxyz0 (readMeshOptions DIM o s0).nxyz1
        (readMeshOptions DIM o s0).nxyz2 (readMeshOptions DIM o s0).nlvls = none := by
  cases hc : mgCheck DIM (readMeshOptions DIM o s0).nxyz0 (readMeshOptions DIM o s0).nxyz1
      (readMeshOptions DIM o s0).nxyz2 (readMeshOptions DIM o s0).nlvls with
  | some a => cases a <;> simp [SetUpMESH, hc]
  | none => cases DIM <;> simp [SetUpMESH, hc]

theorem elemPartition_getElem? (L : List PetscInt) (i : Nat) :
    (elemPartition L.length L)[i]? = L[i]?.map (fun v => if i = 0 then v - 1 else v) := by
  unfold elemPartition
  rw [List.getElem?_map]
  by_cases h : i < L.length
  · rw [List.getElem?_range h, List.getElem?_eq_getElem h]
    simp [List.getD_eq_getElem?_getD, List.getElem?_eq_getElem h]
  · have h' : L.length ≤ i := Nat.le_of_not_lt h
    rw [List.getElem?_eq_none (by simpa using h'), List.getElem?_eq_none h']
    rfl

theorem elemPartition_firstRankMinusOne (L : List PetscInt) :
    FirstRankMinusOne L (elemPartition L.length L) := by
  refine ⟨by simp [elemPartition], ?_, ?_⟩
  · rw [elemPartition_getElem?]; simp
  · intro i
    rw [elemPartition_getElem?]
    cases h : L[i + 1]? <;> simp [h]

/-- C2: whenever `SetUpMESH` returns, on every axis the partition table of the
element grid has the length of the node grid's table, its entry for rank 0 is
the node entry minus 1, and its entry for every other rank is the node entry. -/
theorem SetUpMESH_elem_partition (DIM : Dim) (PHYSICS : Physics) (o : MeshOptions)
    (LxCorrect LyCorrect LzCorrect : List PetscInt) (s0 t : MeshState)
    (h : SetUpMESH DIM PHYSICS o LxCorrect LyCorrect LzCorrect s0 = MeshResult.returned t) :
    ∃ nodes elem, t.da_nodes = some nodes ∧ t.da_elem = some elem ∧
      nodes.lx = LxCorrect ∧ nodes.ly = LyCorrect ∧
      (DIM = Dim.three → nodes.lz = LzCorrect) ∧
      FirstRankMinusOne nodes.lx elem.lx ∧ FirstRankMinusOne nodes.ly elem.ly ∧
      FirstRankMinusOne nodes.lz elem.lz := by
  cases hc : mgCheck DIM (readMeshOptions DIM o s0).nxyz0 (readMeshOptions DIM o s0).nxyz1
      (readMeshOptions DIM o s0).nxyz2 (readMeshOptions DIM o s0).nlvls with
  | some a => cases a <;> simp [SetUpMESH, hc] at h
  | none =>
    cases DIM with
    | two =>
      simp only [SetUpMESH, hc, MeshResult.returned.injEq] at h
      subst h
      exact ⟨_, _, rfl, rfl, rfl, rfl, by simp, elemPartition_firstRankMinusOne _,
        elemPartition_firstRankMinusOne _, by simp [FirstRankMinusOne]⟩
    | three =>
      simp only [SetUpMESH, hc, MeshResult.returned.injEq] at h
      subst h
      exact ⟨_, _, rfl, rfl, rfl, rfl, fun _ => rfl, elemPartition_firstRankMinusOne _,
        elemPartition_firstRankMinusOne _, elemPartition_firstRankMinusOne _⟩

theorem meshExample_eq :
    SetUpMESH Dim.three Physics.elasticity {} [33, 32] [33] [17, 16]
      (defaults3D Physics.elasticity) = MeshResult.returned meshExample := by
  have hx : mgIncompatible 65 4 = false := by
    rw [mgIncompatible_eq_false_iff 65 4 (by decide) (by decide) (by decide)]; decide
  have hy : mgIncompatible 33 4 = false := by
    rw [mgIncompatible_eq_false_iff 33 4 (by decide) (by decide) (by decide)]; decide
  simp [SetUpMESH, mgCheck, readMeshOptions, defaults3D, hx, hy, meshExample, spacing,
    elemPartition, numnodaldof, List.range_succ]
  norm_num

theorem SetUpMESH_elem_partition_witness :
    SetUpMESH Dim.three Physics.elasticity {} [33, 32] [33] [17, 16]
        (defaults3D Physics.elasticity) = MeshResult.returned meshExample ∧
      ∃ nodes elem, meshExample.da_nodes = some nodes ∧ meshExample.da_elem = some elem ∧
        nodes.lx = [33, 32] ∧ nodes.ly = [33] ∧ (Dim.three = Dim.three → nodes.lz = [17, 16]) ∧
        FirstRankMinusOne nodes.lx elem.lx ∧ FirstRankMinusOne nodes.ly elem.ly ∧
        FirstRankMinusOne nodes.lz elem.lz :=
  ⟨meshExample_eq,
    SetUpMESH_elem_partition Dim.three Physics.elasticity {} [33, 32] [33] [17, 16]
      (defaults3D Physics.elasticity) meshExample meshExample_eq⟩

/-! ## Theorems: writing a checkpoint -/

theorem append_left_ne (w a b : String) (h : a ≠ b) : w ++ a ≠ w ++ b := by
  intro he
  apply h
  have := congrArg String.data he
  simp only [String.data_append] at this
  exact String.ext (List.append_cancel_left this)

theorem append_ne_empty (w a : String) (h : a ≠ "") : w ++ a ≠ "" := by
  intro he
  apply h
  have := congrArg String.data he
  simp only [String.data_append] at this
  exact String.ext (List.append_eq_nil.mp this).2

theorem FS.write_same (fs : FS) (n : String) (f : File) : (fs.write n f) n = some f := by
  simp [FS.write]

theorem FS.write_other (fs : FS) (n p : String) (f : File) (h : p ≠ n) :
    (fs.write n f) p = fs p := by
  simp [FS.write, h]

theorem FS.write_comm (fs : FS) (n1 n2 : String) (f1 f2 : File) (h : n1 ≠ n2) :
    (fs.write n1 f1).write n2 f2 = (fs.write n2 f2).write n1 f1 := by
  funext p
  simp only [FS.write]
  by_cases h1 : p = n1
  · subst h1
    simp [h]
  · by_cases h2 : p = n2
    · subst h2
      simp [h1]
    · simp [h1, h2]

theorem VecView_write (fs : FS) (view : String) (vecs : List (List PetscScalar)) (v : Vec) :
    VecView v view (fs.write view (File.binary vecs))
      = fs.write view (File.binary (vecs ++ [v.vals])) := by
  funext p
  simp only [VecView, FS.write_same]
  simp only [FS.write]
  by_cases h : p = view <;> simp [h]

/-- The four file names of a ready object are pairwise different, whatever the
flag says. -/
theorem RestartFilenames.distinct {w : String} {s : State} (h : RestartFilenames w s) :
    s.filename00 ≠ s.filename01 ∧ s.filename00 ≠ s.filename00Itr ∧
      s.filename00 ≠ s.filename01Itr ∧ s.filename01 ≠ s.filename00Itr ∧
      s.filename01 ≠ s.filename01Itr ∧ s.filename00Itr ≠ s.filename01Itr := by
  obtain ⟨h0, h0i, h1, h1i⟩ := h
  rw [h0, h0i, h1, h1i]
  exact ⟨append_left_ne w _ _ (by decide), append_left_ne w _ _ (by decide),
    append_left_ne w _ _ (by decide), append_left_ne w _ _ (by decide),
    append_left_ne w _ _ (by decide), append_left_ne w _ _ (by decide)⟩

theorem WriteRestartFiles_enabled (s : State) (fs : FS) (itr : PetscInt) (mma : MMARestart)
    (xo1 xo2 U L : Vec) (hr : s.restart = true)
    (h1 : s.xo1 = some xo1) (h2 : s.xo2 = some xo2) (h3 : s.U = some U) (h4 : s.L = some L)
    (hne : (s.afterWrite mma xo1 xo2 U L).container ≠ (s.afterWrite mma xo1 xo2 U L).sidecar) :
    WriteRestartFiles s fs itr mma = some (0, s.afterWrite mma xo1 xo2 U L,
      (fs.write (s.afterWrite mma xo1 xo2 U L).sidecar (File.ascii itr (printfE s.fscale))).write
        (s.afterWrite mma xo1 xo2 U L).container (File.binary (checkpointVectors s mma))) := by
  cases hf : s.flip <;>
  · simp only [State.afterWrite, State.container, State.sidecar, hf] at hne
    simp only [WriteRestartFiles, hr, h1, h2, h3, h4, hf, State.afterWrite, State.container,
      State.sidecar, checkpointVectors]
    simp only [Bool.not_true, Bool.not_false, if_true, if_false, Bool.false_eq_true]
    simp at hne
    rw [FS.write_comm _ _ _ _ _ hne]
    simp only [VecView_write, VecCopy, List.nil_append, List.cons_append]

/-- What a write does on a ready object, with the facts about the slots that
the checkpoint theorems need. -/
theorem WriteRestartFiles_ready (w : String) (s : State) (fs : FS) (itr : PetscInt)
    (mma : MMARestart) (h : RestartReady w s) :
    ∃ s' fs', WriteRestartFiles s fs itr mma = some (0, s', fs') ∧
      s'.flip = (!s.flip) ∧ RestartFilenames w s' ∧
      s'.x = s.x ∧ s'.xPhys = s.xPhys ∧
      s'.xo1.map Vec.vals = some mma.xo1 ∧ s'.xo2.map Vec.vals = some mma.xo2 ∧
      s'.U.map Vec.vals = some mma.U ∧ s'.L.map Vec.vals = some mma.L ∧
      s'.container ≠ s'.sidecar ∧ s'.container ≠ s.container ∧ s'.container ≠ s.sidecar ∧
      s'.sidecar ≠ s.container ∧ s'.sidecar ≠ s.sidecar ∧
      fs' = (fs.write s'.sidecar (File.ascii itr (printfE s.fscale))).write s'.container
        (File.binary (checkpointVectors s mma)) := by
  obtain ⟨hr, hn, h1, h2, h3, h4⟩ := h
  obtain ⟨xo1, e1⟩ := Option.isSome_iff_exists.mp h1
  obtain ⟨xo2, e2⟩ := Option.isSome_iff_exists.mp h2
  obtain ⟨U, e3⟩ := Option.isSome_iff_exists.mp h3
  obtain ⟨L, e4⟩ := Option.isSome_iff_exists.mp h4
  obtain ⟨d1, d2, d3, d4, d5, d6⟩ := hn.distinct
  have hn' : RestartFilenames w (s.afterWrite mma xo1 xo2 U L) := hn
  have facts : (s.afterWrite mma xo1 xo2 U L).container ≠ (s.afterWrite mma xo1 xo2 U L).sidecar ∧
      (s.afterWrite mma xo1 xo2 U L).container ≠ s.container ∧
      (s.afterWrite mma xo1 xo2 U L).container ≠ s.sidecar ∧
      (s.afterWrite mma xo1 xo2 U L).sidecar ≠ s.container ∧
      (s.afterWrite mma xo1 xo2 U L).sidecar ≠ s.sidecar := by
    cases hf : s.flip <;>
      simp [State.afterWrite, State.container, State.sidecar, hf, d1, d2, d3, d4, d5, d6,
        Ne.symm d1, Ne.symm d2, Ne.symm d3, Ne.symm d4, Ne.symm d5, Ne.symm d6]
  refine ⟨s.afterWrite mma xo1 xo2 U L, _,
    WriteRestartFiles_enabled s fs itr mma xo1 xo2 U L hr e1 e2 e3 e4 facts.1,
    rfl, hn', rfl, rfl, rfl, rfl, rfl, rfl, facts.1, facts.2.1, facts.2.2.1, facts.2.2.2.1,
    facts.2.2.2.2, rfl⟩

theorem runState_ready : RestartReady "./" runState :=
  ⟨rfl, ⟨by decide, by decide, by decide, by decide⟩, rfl, rfl, rfl, rfl⟩

/-- C3: on an object with restart enabled (as `AllocateMMAwithRestart` leaves
it), `WriteRestartFiles` returns 0, flips the flag, so that it selects the slot
other than the one the previous write selected, writes no file other than the
container and the sidecar of the selected slot, and leaves the container and
the sidecar of the previously written slot as they were. -/
theorem WriteRestartFiles_keeps_previous_slot (w : String) (s : State) (fs : FS)
    (itr : PetscInt) (mma : MMARestart) (h : RestartReady w s) :
    ∃ s' fs', WriteRestartFiles s fs itr mma = some (0, s', fs') ∧
      s'.flip = (!s.flip) ∧
      s'.container ≠ s.container ∧ s'.sidecar ≠ s.sidecar ∧
      fs' s.container = fs s.container ∧ fs' s.sidecar = fs s.sidecar ∧
      ∀ p, p ≠ s'.container → p ≠ s'.sidecar → fs' p = fs p := by
  obtain ⟨s', fs', hw, hflip, -, -, -, -, -, -, -, -, c1, c2, c3, c4, hfs⟩ :=
    WriteRestartFiles_ready w s fs itr mma h
  have hall : ∀ p, p ≠ s'.container → p ≠ s'.sidecar → fs' p = fs p := by
    intro p p1 p2
    rw [hfs, FS.write_other _ _ _ _ p1, FS.write_other _ _ _ _ p2]
  exact ⟨s', fs', hw, hflip, c1, c4, hall _ (Ne.symm c1) (Ne.symm c3),
    hall _ (Ne.symm c2) (Ne.symm c4), hall⟩

theorem WriteRestartFiles_keeps_previous_slot_witness :
    RestartReady "./" runState ∧
      ∃ s' fs', WriteRestartFiles runState emptyFS 17 runHistory = some (0, s', fs') ∧
        s'.flip = (!runState.flip) ∧
        s'.container ≠ runState.container ∧ s'.sidecar ≠ runState.sidecar ∧
        fs' runState.container = emptyFS runState.container ∧
        fs' runState.sidecar = emptyFS runState.sidecar ∧
        ∀ p, p ≠ s'.container → p ≠ s'.sidecar → fs' p = emptyFS p :=
  ⟨runState_ready,
    WriteRestartFiles_keeps_previous_slot "./" runState emptyFS 17 runHistory runState_ready⟩

/-- C4: two consecutive successful writes, made with the iteration counters
`N - 1` and `N` (the object may change in between, its flag and file names do
not), leave two different slots on disk: the one the first call selected holds
`N - 1` and exactly the twelve vectors of the first call, the one the second
call selected holds `N` and exactly the twelve vectors of the second call. -/
theorem WriteRestartFiles_twice (w : String) (sA sB : State) (fs : FS) (N : PetscInt)
    (mmaA mmaB : MMARestart) (hA : RestartReady w sA) (hB : RestartReady w sB)
    (hflip : sB.flip = (!sA.flip)) :
    ∃ sA' fs1 sB' fs2,
      WriteRestartFiles sA fs (N - 1) mmaA = some (0, sA', fs1) ∧ sA'.flip = sB.flip ∧
      WriteRestartFiles sB fs1 N mmaB = some (0, sB', fs2) ∧
      sA'.container ≠ sB'.container ∧ sA'.container ≠ sB'.sidecar ∧
      sA'.sidecar ≠ sB'.container ∧ sA'.sidecar ≠ sB'.sidecar ∧
      fs2 sA'.container = some (File.binary (checkpointVectors sA mmaA)) ∧
      fs2 sA'.sidecar = some (File.ascii (N - 1) (printfE sA.fscale)) ∧
      fs2 sB'.container = some (File.binary (checkpointVectors sB mmaB)) ∧
      fs2 sB'.sidecar = some (File.ascii N (printfE sB.fscale)) := by
  obtain ⟨sA', fs1, hwA, hfA, hnA, -, -, -, -, -, -, a0, -, -, -, -, hfs1⟩ :=
    WriteRestartFiles_ready w sA fs (N - 1) mmaA hA
  obtain ⟨sB', fs2, hwB, hfB, hnB, -, -, -, -, -, -, b0, b1, b2, b3, b4, hfs2⟩ :=
    WriteRestartFiles_ready w sB fs1 N mmaB hB
  have hAB : sA'.flip = sB.flip := by rw [hfA, hflip]
  have hc : sA'.container = sB.container := by
    obtain ⟨x0, -, x1, -⟩ := hnA
    obtain ⟨y0, -, y1, -⟩ := hB.2.1
    simp only [State.container, hAB, x0, x1, y0, y1]
  have hs : sA'.sidecar = sB.sidecar := by
    obtain ⟨-, x0, -, x1⟩ := hnA
    obtain ⟨-, y0, -, y1⟩ := hB.2.1
    simp only [State.sidecar, hAB, x0, x1, y0, y1]
  refine ⟨sA', fs1, sB', fs2, hwA, hAB, hwB, ?_, ?_, ?_, ?_, ?_, ?_, ?_, ?_⟩
  · rw [hc]; exact Ne.symm b1
  · rw [hc]; exact Ne.symm b3
  · rw [hs]; exact Ne.symm b2
  · rw [hs]; exact Ne.symm b4
  · rw [hfs2, FS.write_other _ _ _ _ (by rw [hc]; exact Ne.symm b1),
      FS.write_other _ _ _ _ (by rw [hc]; exact Ne.symm b3), hfs1, FS.write_same]
  · rw [hfs2, FS.write_other _ _ _ _ (by rw [hs]; exact Ne.symm b2),
      FS.write_other _ _ _ _ (by rw [hs]; exact Ne.symm b4), hfs1,
      FS.write_other _ _ _ _ (Ne.symm a0), FS.write_same]
  · rw [hfs2, FS.write_same]
  · rw [hfs2, FS.write_other _ _ _ _ (Ne.symm b0), FS.write_same]

theorem runState_flipped_ready :
    RestartReady "./" { runState with flip := false, x := elemVec (1 / 3) (2 / 3) } :=
  ⟨rfl, ⟨by decide, by decide, by decide, by decide⟩, rfl, rfl, rfl, rfl⟩

theorem WriteRestartFiles_twice_witness :
    RestartReady "./" runState ∧
      RestartReady "./" { runState with flip := false, x := elemVec (1 / 3) (2 / 3) } ∧
      ∃ sA' fs1 sB' fs2,
        WriteRestartFiles runState emptyFS (18 - 1) runHistory = some (0, sA', fs1) ∧
        sA'.flip = false ∧
        WriteRestartFiles { runState with flip := false, x := elemVec (1 / 3) (2 / 3) }
          fs1 18 runHistory = some (0, sB', fs2) ∧
        sA'.container ≠ sB'.container ∧ sA'.container ≠ sB'.sidecar ∧
        sA'.sidecar ≠ sB'.container ∧ sA'.sidecar ≠ sB'.sidecar ∧
        fs2 sA'.container = some (File.binary (checkpointVectors runState runHistory)) ∧
        fs2 sA'.sidecar = some (File.ascii (18 - 1) (printfE runState.fscale)) ∧
        fs2 sB'.container = some (File.binary (checkpointVectors
          { runState with flip := false, x := elemVec (1 / 3) (2 / 3) } runHistory)) ∧
        fs2 sB'.sidecar = some (File.ascii 18 (printfE runState.fscale)) :=
  ⟨runState_ready, runState_flipped_ready,
    WriteRestartFiles_twice "./" runState
      { runState with flip := false, x := elemVec (1 / 3) (2 / 3) } emptyFS 18
      runHistory runHistory runState_ready runState_flipped_ready rfl⟩

/-- C5: on an object with restart enabled, `WriteRestartFiles` returns 0, leaves in
the sidecar of the selected slot the iteration counter and the scale factor (in
its `%e` text), and leaves in the container of the selected slot exactly
twelve vectors, in this order: `x`, `xPhys`, the history vectors `xo1`, `xo2`,
`U`, `L` (refreshed from the optimizer), `xPassive0` to `xPassive3`,
`nodeDensity`, `nodeAddingCounts`. -/
theorem WriteRestartFiles_writes_checkpoint (w : String) (s : State) (fs : FS)
    (itr : PetscInt) (mma : MMARestart) (h : RestartReady w s) :
    ∃ s' fs' xo1 xo2 U L, WriteRestartFiles s fs itr mma = some (0, s', fs') ∧
      s'.xo1 = some xo1 ∧ s'.xo2 = some xo2 ∧ s'.U = some U ∧ s'.L = some L ∧
      xo1.vals = mma.xo1 ∧ xo2.vals = mma.xo2 ∧ U.vals = mma.U ∧ L.vals = mma.L ∧
      fs' s'.sidecar = some (File.ascii itr (printfE s.fscale)) ∧
      fs' s'.container = some (File.binary
        [s'.x.vals, s'.xPhys.vals, xo1.vals, xo2.vals, U.vals, L.vals,
         s'.xPassive0.vals, s'.xPassive1.vals, s'.xPassive2.vals, s'.xPassive3.vals,
         s'.nodeDensity.vals, s'.nodeAddingCounts.vals]) := by
  obtain ⟨hr, hn, h1, h2, h3, h4⟩ := h
  obtain ⟨xo1, e1⟩ := Option.isSome_iff_exists.mp h1
  obtain ⟨xo2, e2⟩ := Option.isSome_iff_exists.mp h2
  obtain ⟨U, e3⟩ := Option.isSome_iff_exists.mp h3
  obtain ⟨L, e4⟩ := Option.isSome_iff_exists.mp h4
  obtain ⟨d1, d2, d3, d4, d5, d6⟩ := hn.distinct
  have hne : (s.afterWrite mma xo1 xo2 U L).container ≠ (s.afterWrite mma xo1 xo2 U L).sidecar := by
    cases hf : s.flip <;>
      simp [State.afterWrite, State.container, State.sidecar, hf, d2, d5]
  refine ⟨s.afterWrite mma xo1 xo2 U L, _, VecCopy mma.xo1 xo1, VecCopy mma.xo2 xo2,
    VecCopy mma.U U, VecCopy mma.L L,
    WriteRestartFiles_enabled s fs itr mma xo1 xo2 U L hr e1 e2 e3 e4 hne,
    rfl, rfl, rfl, rfl, rfl, rfl, rfl, rfl, ?_, ?_⟩
  · rw [FS.write_other _ _ _ _ (Ne.symm hne), FS.write_same]
  · rw [FS.write_same]; rfl

theorem WriteRestartFiles_writes_checkpoint_witness :
    RestartReady "./" runState ∧
      ∃ s' fs' xo1 xo2 U L, WriteRestartFiles runState emptyFS 17 runHistory = some (0, s', fs') ∧
        s'.xo1 = some xo1 ∧ s'.xo2 = some xo2 ∧ s'.U = some U ∧ s'.L = some L ∧
        xo1.vals = runHistory.xo1 ∧ xo2.vals = runHistory.xo2 ∧ U.vals = runHistory.U ∧
        L.vals = runHistory.L ∧
        fs' s'.sidecar = some (File.ascii 17 (printfE runState.fscale)) ∧
        fs' s'.container = some (File.binary
          [s'.x.vals, s'.xPhys.vals, xo1.vals, xo2.vals, U.vals, L.vals,
           s'.xPassive0.vals, s'.xPassive1.vals, s'.xPassive2.vals, s'.xPassive3.vals,
           s'.nodeDensity.vals, s'.nodeAddingCounts.vals]) :=
  ⟨runState_ready,
    WriteRestartFiles_writes_checkpoint "./" runState emptyFS 17 runHistory runState_ready⟩

/-- C7: with restart disabled, `WriteRestartFiles` returns the non-zero status -1
and the object (flag and every vector included) and every file are as before
the call. -/
theorem WriteRestartFiles_disabled (s : State) (fs : FS) (itr : PetscInt) (mma : MMARestart)
    (h : s.restart = false) :
    WriteRestartFiles s fs itr mma = some (-1, s, fs) ∧ (-1 : Int) ≠ 0 := by
  constructor
  · simp [WriteRestartFiles, h]
  · decide

theorem WriteRestartFiles_disabled_witness :
    ({ runState with restart := false } : State).restart = false ∧
      WriteRestartFiles { runState with restart := false } emptyFS 17 runHistory
        = some (-1, { runState with restart := false }, emptyFS) ∧ (-1 : Int) ≠ 0 :=
  ⟨rfl, WriteRestartFiles_disabled { runState with restart := false } emptyFS 17 runHistory rfl⟩

/-! ## Theorems: allocation of the optimizer, cold or from a checkpoint -/

theorem empty_append (f : String) : "" ++ f = f := by
  apply String.ext
  simp [String.data_append]

theorem mmaCoefficients_eq (m : Nat) :
    mmaCoefficients m = (List.replicate m 0, List.replicate m 1000, List.replicate m 0) := by
  simp [mmaCoefficients, List.map_const']

theorem AllocateMMAwithRestart_cold (o : RestartOptions) (fs : FS) (s : State) (itr : PetscInt)
    (h : resumes o fs = false) :
    AllocateMMAwithRestart o fs s itr = some
      { state := s.prepared o, itr := itr,
        mma := MMA.fromDesign (VecGetSize s.x) s.m s.x (List.replicate s.m 0)
          (List.replicate s.m 1000) (List.replicate s.m 0),
        reads := [] } := by
  have hv : (match o.restartFileVec with | some f => "" ++ f | none => "") = o.vecPath := by
    unfold RestartOptions.vecPath
    cases o.restartFileVec <;> simp [empty_append]
  have hi : (match o.restartFileItr with | some f => "" ++ f | none => "") = o.itrPath := by
    unfold RestartOptions.itrPath
    cases o.restartFileItr <;> simp [empty_append]
  have hw : (match o.workdir with | some w => "" ++ w | none => "./") = o.workdir.getD "./" := by
    cases o.workdir <;> simp [empty_append]
  unfold resumes at h
  simp only [AllocateMMAwithRestart, mmaCoefficients_eq, hv, hi, hw, h]
  cases hr : o.restart.getD true <;> simp [State.prepared, hr]

theorem AllocateMMAwithRestart_resume (o : RestartOptions) (fs : FS) (s : State) (itr : PetscInt)
    (x xPhys xo1 xo2 U L : List PetscScalar) (rest : List (List PetscScalar))
    (i : PetscInt) (f : PetscScalar)
    (h : resumes o fs = true)
    (hvec : fs o.vecPath = some (File.binary (x :: xPhys :: xo1 :: xo2 :: U :: L :: rest)))
    (hitr : fs o.itrPath = some (File.ascii i f)) :
    AllocateMMAwithRestart o fs s itr = some
      { state := s.resumed o x xPhys xo1 xo2 U L f, itr := i,
        mma :=
          if o.onlyLoadDesign.getD false then
            MMA.fromDesign (VecGetSize s.x) s.m { layout := s.x.layout, vals := x }
              (List.replicate s.m 0) (List.replicate s.m 1000) (List.replicate s.m 0)
          else
            MMA.fromHistory (VecGetSize s.x) s.m i { layout := s.x.layout, vals := xo1 }
              { layout := s.x.layout, vals := xo2 } { layout := s.x.layout, vals := U }
              { layout := s.x.layout, vals := L }
              (List.replicate s.m 0) (List.replicate s.m 1000) (List.replicate s.m 0),
        reads := [o.vecPath, o.itrPath] } := by
  have hv : (match o.restartFileVec with | some f => "" ++ f | none => "") = o.vecPath := by
    unfold RestartOptions.vecPath
    cases o.restartFileVec <;> simp [empty_append]
  have hi : (match o.restartFileItr with | some f => "" ++ f | none => "") = o.itrPath := by
    unfold RestartOptions.itrPath
    cases o.restartFileItr <;> simp [empty_append]
  have hw : (match o.workdir with | some w => "" ++ w | none => "./") = o.workdir.getD "./" := by
    cases o.workdir <;> simp [empty_append]
  unfold resumes at h
  simp only [Bool.and_eq_true] at h
  obtain ⟨⟨hr, hfv⟩, hfi⟩ := h
  simp only [AllocateMMAwithRestart, mmaCoefficients_eq, hv, hi, hw, hvec, hitr, hr, hfv, hfi]
  cases hd : o.onlyLoadDesign.getD false <;>
    simp [State.resumed, State.prepared, hr, hd, VecLoad, VecDuplicate, bind, Option.bind]

/-- A result in the resume branch means that the configured files were a
container with at least six vectors and a sidecar. -/
theorem AllocateMMAwithRestart_resume_inv (o : RestartOptions) (fs : FS) (s : State)
    (itr : PetscInt) (r : Allocated) (h : resumes o fs = true)
    (hr : AllocateMMAwithRestart o fs s itr = some r) :
    ∃ x xPhys xo1 xo2 U L rest i f,
      fs o.vecPath = some (File.binary (x :: xPhys :: xo1 :: xo2 :: U :: L :: rest)) ∧
      fs o.itrPath = some (File.ascii i f) := by
  have hv : (match o.restartFileVec with | some f => "" ++ f | none => "") = o.vecPath := by
    unfold RestartOptions.vecPath
    cases o.restartFileVec <;> simp [empty_append]
  have hi : (match o.restartFileItr with | some f => "" ++ f | none => "") = o.itrPath := by
    unfold RestartOptions.itrPath
    cases o.restartFileItr <;> simp [empty_append]
  have h' := h
  unfold resumes at h'
  simp only [Bool.and_eq_true] at h'
  obtain ⟨⟨h1, hfv⟩, hfi⟩ := h'
  simp only [AllocateMMAwithRestart, hv, hi, h1, hfv, hfi] at hr
  cases hvec : fs o.vecPath with
  | none => simp [hvec] at hr
  | some fv =>
    cases hitr : fs o.itrPath with
    | none => simp [hvec, hitr] at hr
    | some fi =>
      cases fv with
      | ascii a b => simp [hvec, hitr] at hr
      | binary view =>
        cases fi with
        | binary a => simp [hvec, hitr] at hr
        | ascii i f =>
          rcases view with _ | ⟨x, _ | ⟨xPhys, _ | ⟨xo1, _ | ⟨xo2, _ | ⟨U, _ | ⟨L, rest⟩⟩⟩⟩⟩⟩
          case cons.cons.cons.cons.cons.cons =>
            exact ⟨x, xPhys, xo1, xo2, U, L, rest, i, f, rfl, rfl⟩
          all_goals
            simp [hvec, hitr, VecLoad, bind, Option.bind] at hr

/-- Whatever path it takes, `AllocateMMAwithRestart` with restart enabled leaves
an object on which checkpoints can be written: flag set, file names assigned
from the working directory, history vectors created. -/
theorem AllocateMMAwithRestart_ready (o : RestartOptions) (fs : FS) (s : State)
    (itr : PetscInt) (r : Allocated) (h : o.restart.getD true = true)
    (hr : AllocateMMAwithRestart o fs s itr = some r) :
    RestartReady (o.workdir.getD "./") r.state ∧ r.state.flip = true := by
  cases hres : resumes o fs with
  | true =>
    obtain ⟨x, xPhys, xo1, xo2, U, L, rest, i, f, hvec, hitr⟩ :=
      AllocateMMAwithRestart_resume_inv o fs s itr r hres hr
    rw [AllocateMMAwithRestart_resume o fs s itr x xPhys xo1 xo2 U L rest i f hres hvec hitr]
      at hr
    simp only [Option.some.injEq] at hr
    rw [← hr]
    simp [RestartReady, RestartFilenames, State.resumed, State.prepared, h]
  | false =>
    rw [AllocateMMAwithRestart_cold o fs s itr hres] at hr
    simp only [Option.some.injEq] at hr
    rw [← hr]
    simp [RestartReady, RestartFilenames, State.prepared, h]

theorem printfE_runState : printfE runState.fscale = 12345680 := by
  have hlog : Int.log 10 (12345678 : ℚ) = 7 := by
    have h : (12345678 : ℚ) = ((12345678 : ℕ) : ℚ) := by norm_num
    rw [h, Int.log_natCast]
    have : Nat.log 10 12345678 = 7 := by
      rw [Nat.log_eq_iff (by norm_num)]
      norm_num
    rw [this]; rfl
  have habs : |(12345678 : ℚ)| = 12345678 := abs_of_pos (by norm_num)
  have hfl : Int.floor ((12345678 : ℚ) / 10) = 1234567 := by
    rw [Int.floor_eq_iff]; norm_num
  show printfE 12345678 = 12345680
  unfold printfE
  rw [if_neg (by norm_num), habs, hlog]
  norm_num [roundHalfEven, hfl]

theorem runState_write :
    WriteRestartFiles runState emptyFS 17 runHistory = some (0,
      runState.afterWrite runHistory (elemVec 0 0) (elemVec 0 0) (elemVec 0 0) (elemVec 0 0),
      checkpointFS) := by
  rw [WriteRestartFiles_enabled runState emptyFS 17 runHistory (elemVec 0 0) (elemVec 0 0)
    (elemVec 0 0) (elemVec 0 0) rfl rfl rfl rfl rfl (by decide), printfE_runState]
  rfl

theorem resumes_checkpointFS : resumes resumeOptions checkpointFS = true := by
  decide

theorem resumes_unconfigured (o : RestartOptions) (fs : FS)
    (h : o.restartFileVec = none ∨ o.restartFileItr = none) : resumes o fs = false := by
  rcases h with h | h <;>
    simp [resumes, fexists, RestartOptions.vecPath, RestartOptions.itrPath, h]

/-- C8: `AllocateMMAwithRestart` takes the resume branch, in which it reads the
two configured files (and loads from them whenever they are a container and a
sidecar), exactly when restart is enabled and both configured files exist.
In every other case, which includes a path that is not configured, it opens no
file, leaves `x`, the iteration counter and the scale factor as they are, and
constructs the optimizer from the current `x`. -/
theorem AllocateMMAwithRestart_resume_iff (o : RestartOptions) (fs : FS) (s : State)
    (itr : PetscInt) :
    (resumes o fs = true ↔
        o.restart.getD true = true ∧ fexists fs o.vecPath = true ∧ fexists fs o.itrPath = true) ∧
      (∀ r, AllocateMMAwithRestart o fs s itr = some r →
        (r.reads = [o.vecPath, o.itrPath] ↔ resumes o fs = true) ∧
        (r.reads = [] ↔ resumes o fs = false)) ∧
      (resumes o fs = true → ∀ x xPhys xo1 xo2 U L rest i f,
        fs o.vecPath = some (File.binary (x :: xPhys :: xo1 :: xo2 :: U :: L :: rest)) →
        fs o.itrPath = some (File.ascii i f) →
        ∃ r, AllocateMMAwithRestart o fs s itr = some r ∧ r.reads = [o.vecPath, o.itrPath] ∧
          r.state.x.vals = x ∧ r.itr = i ∧ r.state.fscale = f) ∧
      (resumes o fs = false →
        ∃ r, AllocateMMAwithRestart o fs s itr = some r ∧ r.reads = [] ∧
          r.state.x = s.x ∧ r.itr = itr ∧ r.state.fscale = s.fscale ∧
          r.mma = MMA.fromDesign (VecGetSize s.x) s.m s.x (List.replicate s.m 0)
            (List.replicate s.m 1000) (List.replicate s.m 0)) ∧
      (o.restartFileVec = none ∨ o.restartFileItr = none → resumes o fs = false) := by
  refine ⟨?_, ?_, ?_, ?_, resumes_unconfigured o fs⟩
  · simp [resumes, and_assoc]
  · intro r hr
    cases h : resumes o fs with
    | true =>
      obtain ⟨x, xPhys, xo1, xo2, U, L, rest, i, f, hvec, hitr⟩ :=
        AllocateMMAwithRestart_resume_inv o fs s itr r h hr
      rw [AllocateMMAwithRestart_resume o fs s itr x xPhys xo1 xo2 U L rest i f h hvec hitr] at hr
      simp only [Option.some.injEq] at hr
      rw [← hr]
      simp
    | false =>
      rw [AllocateMMAwithRestart_cold o fs s itr h] at hr
      simp only [Option.some.injEq] at hr
      rw [← hr]
      simp
  · intro h x xPhys xo1 xo2 U L rest i f hvec hitr
    exact ⟨_, AllocateMMAwithRestart_resume o fs s itr x xPhys xo1 xo2 U L rest i f h hvec hitr,
      rfl, rfl, rfl, rfl⟩
  · intro h
    exact ⟨_, AllocateMMAwithRestart_cold o fs s itr h, rfl, rfl, rfl, rfl, rfl⟩

theorem AllocateMMAwithRestart_resume_iff_witness :
    (resumes resumeOptions checkpointFS = true ∧
      ∃ r, AllocateMMAwithRestart resumeOptions checkpointFS freshState 0 = some r ∧
        r.reads = [".//Restart00.dat", ".//Restart00_itr_f0.dat"] ∧
        r.state.x.vals = [1 / 2, 1 / 4] ∧ r.itr = 17 ∧ r.state.fscale = 12345680) ∧
      (resumes {} checkpointFS = false ∧
        ∃ r, AllocateMMAwithRestart {} checkpointFS freshState 0 = some r ∧ r.reads = [] ∧
          r.state.x = freshState.x ∧ r.itr = 0 ∧ r.state.fscale = freshState.fscale ∧
          r.mma = MMA.fromDesign (VecGetSize freshState.x) freshState.m freshState.x
            (List.replicate freshState.m 0) (List.replicate freshState.m 1000)
            (List.replicate freshState.m 0)) :=
  ⟨⟨resumes_checkpointFS,
      (AllocateMMAwithRestart_resume_iff resumeOptions checkpointFS freshState 0).2.2.1
        resumes_checkpointFS _ _ _ _ _ _ _ _ _ rfl rfl⟩,
    ⟨by decide,
      (AllocateMMAwithRestart_resume_iff {} checkpointFS freshState 0).2.2.2.1 (by decide)⟩⟩

theorem replicate_getElem?_lt (m i : Nat) (v : PetscScalar) (h : i < m) :
    (List.replicate m v)[i]? = some v := by
  rw [List.getElem?_eq_getElem (by simpa using h)]
  simp

/-- C9: on every path `AllocateMMAwithRestart` constructs the optimizer with
coefficient arrays of length `m` whose entries are `a[i] = 0`, `d[i] = 0`,
`c[i] = 1000`.  On the cold path the optimizer is constructed from the current
design vector alone; on the design-only resume path from the loaded design
vector alone; on the continue resume path from the loaded iteration counter
and the four loaded history vectors `xo1`, `xo2`, `U`, `L`. -/
theorem AllocateMMAwithRestart_optimizer (o : RestartOptions) (fs : FS) (s : State)
    (itr : PetscInt) :
    (∀ r, AllocateMMAwithRestart o fs s itr = some r →
        r.mma.a.length = s.m ∧ r.mma.c.length = s.m ∧ r.mma.d.length = s.m ∧
        ∀ i, i < s.m →
          r.mma.a[i]? = some 0 ∧ r.mma.d[i]? = some 0 ∧ r.mma.c[i]? = some 1000) ∧
      (resumes o fs = false →
        ∃ r, AllocateMMAwithRestart o fs s itr = some r ∧
          r.mma = MMA.fromDesign (VecGetSize s.x) s.m s.x r.mma.a r.mma.c r.mma.d) ∧
      (resumes o fs = true → ∀ x xPhys xo1 xo2 U L rest i f,
        fs o.vecPath = some (File.binary (x :: xPhys :: xo1 :: xo2 :: U :: L :: rest)) →
        fs o.itrPath = some (File.ascii i f) →
        ∃ r h1 h2 h3 h4, AllocateMMAwithRestart o fs s itr = some r ∧
          r.state.x.vals = x ∧ r.itr = i ∧
          r.state.xo1 = some h1 ∧ r.state.xo2 = some h2 ∧ r.state.U = some h3 ∧
          r.state.L = some h4 ∧
          h1.vals = xo1 ∧ h2.vals = xo2 ∧ h3.vals = U ∧ h4.vals = L ∧
          (o.onlyLoadDesign.getD false = true →
            r.mma = MMA.fromDesign (VecGetSize s.x) s.m r.state.x r.mma.a r.mma.c r.mma.d) ∧
          (o.onlyLoadDesign.getD false = false →
            r.mma = MMA.fromHistory (VecGetSize s.x) s.m r.itr h1 h2 h3 h4
              r.mma.a r.mma.c r.mma.d)) := by
  refine ⟨?_, ?_, ?_⟩
  · intro r hr
    have key : r.mma.a = List.replicate s.m 0 ∧ r.mma.c = List.replicate s.m 1000 ∧
        r.mma.d = List.replicate s.m 0 := by
      cases h : resumes o fs with
      | true =>
        obtain ⟨x, xPhys, xo1, xo2, U, L, rest, i, f, hvec, hitr⟩ :=
          AllocateMMAwithRestart_resume_inv o fs s itr r h hr
        rw [AllocateMMAwithRestart_resume o fs s itr x xPhys xo1 xo2 U L rest i f h hvec hitr]
          at hr
        simp only [Option.some.injEq] at hr
        rw [← hr]
        cases o.onlyLoadDesign.getD false <;> simp [MMA.a, MMA.c, MMA.d]
      | false =>
        rw [AllocateMMAwithRestart_cold o fs s itr h] at hr
        simp only [Option.some.injEq] at hr
        rw [← hr]
        simp [MMA.a, MMA.c, MMA.d]
    obtain ⟨ka, kc, kd⟩ := key
    rw [ka, kc, kd]
    refine ⟨by simp, by simp, by simp, fun i hi => ?_⟩
    exact ⟨replicate_getElem?_lt _ _ _ hi, replicate_getElem?_lt _ _ _ hi,
      replicate_getElem?_lt _ _ _ hi⟩
  · intro h
    exact ⟨_, AllocateMMAwithRestart_cold o fs s itr h, rfl⟩
  · intro h x xPhys xo1 xo2 U L rest i f hvec hitr
    refine ⟨_, _, _, _, _,
      AllocateMMAwithRestart_resume o fs s itr x xPhys xo1 xo2 U L rest i f h hvec hitr,
      rfl, rfl, rfl, rfl, rfl, rfl, rfl, rfl, rfl, rfl, ?_, ?_⟩
    · intro hd
      simp [hd, MMA.a, MMA.c, MMA.d, State.resumed]
    · intro hd
      simp [hd, MMA.a, MMA.c, MMA.d]

theorem AllocateMMAwithRestart_optimizer_witness :
    resumes resumeOptions checkpointFS = true ∧
      ∃ r h1 h2 h3 h4, AllocateMMAwithRestart resumeOptions checkpointFS freshState 0 = some r ∧
        r.state.x.vals = [1 / 2, 1 / 4] ∧ r.itr = 17 ∧
        r.state.xo1 = some h1 ∧ r.state.xo2 = some h2 ∧ r.state.U = some h3 ∧
        r.state.L = some h4 ∧
        h1.vals = [2 / 5, 1 / 5] ∧ h2.vals = [3 / 10, 3 / 10] ∧ h3.vals = [1, 1] ∧
        h4.vals = [0, 0] ∧
        (resumeOptions.onlyLoadDesign.getD false = true →
          r.mma = MMA.fromDesign (VecGetSize freshState.x) freshState.m r.state.x
            r.mma.a r.mma.c r.mma.d) ∧
        (resumeOptions.onlyLoadDesign.getD false = false →
          r.mma = MMA.fromHistory (VecGetSize freshState.x) freshState.m r.itr h1 h2 h3 h4
            r.mma.a r.mma.c r.mma.d) :=
  ⟨resumes_checkpointFS,
    (AllocateMMAwithRestart_optimizer resumeOptions checkpointFS freshState 0).2.2
      resumes_checkpointFS _ _ _ _ _ _ _ _ _ rfl rfl⟩

/-! ## Theorems: write, then resume -/

/-- C6 as stated fails: after `WriteRestartFiles` on `runState` and a resume in
continue mode from the slot just written, the mask `xPassive0`, which was
written to the container, is not reproduced (nothing reads it back), and the
scale factor 12345678 comes back as 12345680. -/
theorem roundtrip_not_exact :
    ∃ s' fs' r, WriteRestartFiles runState emptyFS 17 runHistory = some (0, s', fs') ∧
      fs' s'.container = some (File.binary (checkpointVectors runState runHistory)) ∧
      runState.xPassive0.vals ∈ checkpointVectors runState runHistory ∧
      AllocateMMAwithRestart
        { restartFileVec := some s'.container, restartFileItr := some s'.sidecar,
          onlyLoadDesign := some false } fs' freshState 0 = some r ∧
      r.state.xPassive0.vals = [0, 0] ∧ runState.xPassive0.vals = [1, 0] ∧
      r.state.xPassive0.vals ≠ runState.xPassive0.vals ∧
      r.state.fscale = 12345680 ∧ runState.fscale = 12345678 ∧
      r.state.fscale ≠ runState.fscale := by
  refine ⟨_, _, _, runState_write, rfl, by simp [checkpointVectors],
    AllocateMMAwithRestart_resume _ checkpointFS freshState 0 _ _ _ _ _ _ _ _ _
      (by decide) rfl rfl, rfl, rfl, ?_, rfl, rfl, ?_⟩
  · simp [State.resumed, State.prepared, freshState, runState, elemVec]
  · simp [State.resumed, runState]

/-- C6, amended: a write on an object with restart enabled, followed by a resume
(restart not disabled, either mode) that is pointed at the container and the
sidecar of the slot just written, succeeds, reads exactly these two files, and
reproduces exactly the first six vectors written, in the order written (`x`,
`xPhys`, `xo1`, `xo2`, `U`, `L`), and the iteration counter.  The six vectors
written after them are not read back: `xPassive0` to `xPassive3`,
`nodeDensity` and `nodeAddingCounts` stay as they are in the resuming object.
The scale factor comes back as the number that its `%e` text denotes. -/
theorem write_then_resume (w : String) (s : State) (fs : FS) (itr : PetscInt)
    (mma : MMARestart) (o : RestartOptions) (t : State) (itr0 : PetscInt)
    (h : RestartReady w s) (hr : o.restart.getD true = true)
    (hv : o.restartFileVec = some (State.container { s with flip := !s.flip }))
    (hi : o.restartFileItr = some (State.sidecar { s with flip := !s.flip })) :
    ∃ s' fs' r, WriteRestartFiles s fs itr mma = some (0, s', fs') ∧
      s'.container = o.vecPath ∧ s'.sidecar = o.itrPath ∧
      AllocateMMAwithRestart o fs' t itr0 = some r ∧
      r.reads = [s'.container, s'.sidecar] ∧
      r.state.x.vals = s.x.vals ∧ r.state.xPhys.vals = s.xPhys.vals ∧
      r.state.xo1.map Vec.vals = some mma.xo1 ∧ r.state.xo2.map Vec.vals = some mma.xo2 ∧
      r.state.U.map Vec.vals = some mma.U ∧ r.state.L.map Vec.vals = some mma.L ∧
      r.itr = itr ∧ r.state.fscale = printfE s.fscale ∧
      r.state.xPassive0 = t.xPassive0 ∧ r.state.xPassive1 = t.xPassive1 ∧
      r.state.xPassive2 = t.xPassive2 ∧ r.state.xPassive3 = t.xPassive3 ∧
      r.state.nodeDensity = t.nodeDensity ∧
      r.state.nodeAddingCounts = t.nodeAddingCounts := by
  obtain ⟨s', fs', hw, hflip, hn, -, -, -, -, -, -, c0, -, -, -, -, hfs⟩ :=
    WriteRestartFiles_ready w s fs itr mma h
  have hc : s'.container = State.container { s with flip := !s.flip } := by
    obtain ⟨x0, -, x1, -⟩ := hn
    obtain ⟨y0, -, y1, -⟩ := h.2.1
    simp only [State.container, hflip, x0, x1, y0, y1]
  have hs : s'.sidecar = State.sidecar { s with flip := !s.flip } := by
    obtain ⟨-, x0, -, x1⟩ := hn
    obtain ⟨-, y0, -, y1⟩ := h.2.1
    simp only [State.sidecar, hflip, x0, x1, y0, y1]
  have pv : o.vecPath = s'.container := by simp [RestartOptions.vecPath, hv, hc]
  have pi : o.itrPath = s'.sidecar := by simp [RestartOptions.itrPath, hi, hs]
  have hvec : fs' o.vecPath = some (File.binary (checkpointVectors s mma)) := by
    rw [pv, hfs, FS.write_same]
  have hitr : fs' o.itrPath = some (File.ascii itr (printfE s.fscale)) := by
    rw [pi, hfs, FS.write_other _ _ _ _ (Ne.symm c0), FS.write_same]
  have nv : s'.container ≠ "" := by
    obtain ⟨x0, -, x1, -⟩ := hn
    unfold State.container
    split
    · rw [x0]; exact append_ne_empty w _ (by decide)
    · rw [x1]; exact append_ne_empty w _ (by decide)
  have ni : s'.sidecar ≠ "" := by
    obtain ⟨-, x0, -, x1⟩ := hn
    unfold State.sidecar
    split
    · rw [x0]; exact append_ne_empty w _ (by decide)
    · rw [x1]; exact append_ne_empty w _ (by decide)
  have hres : resumes o fs' = true := by
    simp [resumes, fexists, hr, hvec, hitr, pv ▸ nv, pi ▸ ni]
  have := AllocateMMAwithRestart_resume o fs' t itr0 _ _ _ _ _ _ _ _ _ hres hvec hitr
  exact ⟨s', fs', _, hw, pv.symm, pi.symm, this, by rw [pv, pi], rfl, rfl, rfl, rfl, rfl, rfl,
    rfl, rfl, rfl, rfl, rfl, rfl, rfl, rfl⟩

theorem write_then_resume_witness :
    RestartReady "./" runState ∧ resumeOptions.restart.getD true = true ∧
      resumeOptions.restartFileVec
        = some (State.container { runState with flip := !runState.flip }) ∧
      resumeOptions.restartFileItr
        = some (State.sidecar { runState with flip := !runState.flip }) ∧
      ∃ s' fs' r, WriteRestartFiles runState emptyFS 17 runHistory = some (0, s', fs') ∧
        s'.container = resumeOptions.vecPath ∧ s'.sidecar = resumeOptions.itrPath ∧
        AllocateMMAwithRestart resumeOptions fs' freshState 0 = some r ∧
        r.reads = [s'.container, s'.sidecar] ∧
        r.state.x.vals = runState.x.vals ∧ r.state.xPhys.vals = runState.xPhys.vals ∧
        r.state.xo1.map Vec.vals = some runHistory.xo1 ∧
        r.state.xo2.map Vec.vals = some runHistory.xo2 ∧
        r.state.U.map Vec.vals = some runHistory.U ∧
        r.state.L.map Vec.vals = some runHistory.L ∧
        r.itr = 17 ∧ r.state.fscale = printfE runState.fscale ∧
        r.state.xPassive0 = freshState.xPassive0 ∧ r.state.xPassive1 = freshState.xPassive1 ∧
        r.state.xPassive2 = freshState.xPassive2 ∧ r.state.xPassive3 = freshState.xPassive3 ∧
        r.state.nodeDensity = freshState.nodeDensity ∧
        r.state.nodeAddingCounts = freshState.nodeAddingCounts :=
  ⟨runState_ready, rfl, rfl, rfl,
    write_then_resume "./" runState emptyFS 17 runHistory resumeOptions freshState 0
      runState_ready rfl rfl rfl⟩

/-! ## Theorems: the design-only resume -/

/-- C10 as stated fails: resuming `freshState` from the checkpoint of `runState`
in design-only mode, compared with the cold start of the same object (same
options, no restart files configured), also replaces `xPhys` and the history
vectors `xo1`, `xo2`, `U`, `L` by the checkpoint's, sets the iteration counter
to 17 instead of leaving it at 0, and replaces the scale factor. -/
theorem design_only_not_cold :
    ∃ rd rc,
      AllocateMMAwithRestart { resumeOptions with onlyLoadDesign := some true } checkpointFS
        freshState 0 = some rd ∧
      AllocateMMAwithRestart { onlyLoadDesign := some true } checkpointFS freshState 0
        = some rc ∧
      rd.state.xPhys.vals = [3 / 4, 1 / 8] ∧ rc.state.xPhys.vals = [3 / 25, 3 / 25] ∧
      rd.state.xPhys ≠ rc.state.xPhys ∧
      rd.state.xo1.map Vec.vals = some [2 / 5, 1 / 5] ∧
      rc.state.xo1.map Vec.vals = some [0, 0] ∧
      rd.state.xo1 ≠ rc.state.xo1 ∧ rd.state.xo2 ≠ rc.state.xo2 ∧
      rd.state.U ≠ rc.state.U ∧
      rd.itr = 17 ∧ rc.itr = 0 ∧ rd.itr ≠ rc.itr ∧
      rd.state.fscale = 12345680 ∧ rc.state.fscale = 1 ∧
      rd.state.fscale ≠ rc.state.fscale := by
  refine ⟨_, _,
    AllocateMMAwithRestart_resume _ checkpointFS freshState 0 _ _ _ _ _ _ _ _ _
      (by decide) rfl rfl,
    AllocateMMAwithRestart_cold _ checkpointFS freshState 0 (by decide),
    rfl, rfl, ?_, rfl, rfl, ?_, ?_, ?_, rfl, rfl, by decide, rfl, rfl, ?_⟩
  · simp [State.resumed, State.prepared, freshState, runState, checkpointVectors, elemVec]
    norm_num
  · simp [State.resumed, State.prepared, freshState, runState, runHistory, checkpointVectors,
      elemVec, VecDuplicate]
  · simp [State.resumed, State.prepared, freshState, runState, runHistory, checkpointVectors,
      elemVec, VecDuplicate]
  · simp [State.resumed, State.prepared, freshState, runState, runHistory, checkpointVectors,
      elemVec, VecDuplicate]
  · simp [State.resumed, State.prepared, freshState]

/-- C10, amended: in design-only resume mode the optimizer is constructed as on a
cold start, from the design vector alone with the default coefficients and no
history, the design vector being the loaded one.  The object itself is loaded
exactly as in continue mode: `x`, `xPhys`, `xo1`, `xo2`, `U`, `L` are all read
from the container, and the iteration counter and the scale factor are
restored from the sidecar. -/
theorem design_only_resume (o : RestartOptions) (fs : FS) (s : State) (itr : PetscInt)
    (x xPhys xo1 xo2 U L : List PetscScalar) (rest : List (List PetscScalar))
    (i : PetscInt) (f : PetscScalar) (h : resumes o fs = true)
    (hvec : fs o.vecPath = some (File.binary (x :: xPhys :: xo1 :: xo2 :: U :: L :: rest)))
    (hitr : fs o.itrPath = some (File.ascii i f)) :
    ∃ rd rc,
      AllocateMMAwithRestart { o with onlyLoadDesign := some true } fs s itr = some rd ∧
      AllocateMMAwithRestart { o with onlyLoadDesign := some false } fs s itr = some rc ∧
      rd.state = rc.state ∧ rd.itr = rc.itr ∧ rd.reads = rc.reads ∧
      rd.reads = [o.vecPath, o.itrPath] ∧
      rd.state.x.vals = x ∧ rd.state.xPhys.vals = xPhys ∧
      rd.state.xo1.map Vec.vals = some xo1 ∧ rd.state.xo2.map Vec.vals = some xo2 ∧
      rd.state.U.map Vec.vals = some U ∧ rd.state.L.map Vec.vals = some L ∧
      rd.itr = i ∧ rd.state.fscale = f ∧
      rd.mma = MMA.fromDesign (VecGetSize s.x) s.m rd.state.x (List.replicate s.m 0)
        (List.replicate s.m 1000) (List.replicate s.m 0) := by
  have hd := AllocateMMAwithRestart_resume { o with onlyLoadDesign := some true } fs s itr
    x xPhys xo1 xo2 U L rest i f h hvec hitr
  have hc := AllocateMMAwithRestart_resume { o with onlyLoadDesign := some false } fs s itr
    x xPhys xo1 xo2 U L rest i f h hvec hitr
  exact ⟨_, _, hd, hc, rfl, rfl, rfl, rfl, rfl, rfl, rfl, rfl, rfl, rfl, rfl, rfl, rfl⟩

theorem design_only_resume_witness :
    resumes resumeOptions checkpointFS = true ∧
      ∃ rd rc,
        AllocateMMAwithRestart { resumeOptions with onlyLoadDesign := some true } checkpointFS
          freshState 0 = some rd ∧
        AllocateMMAwithRestart { resumeOptions with onlyLoadDesign := some false } checkpointFS
          freshState 0 = some rc ∧
        rd.state = rc.state ∧ rd.itr = rc.itr ∧ rd.reads = rc.reads ∧
        rd.reads = [resumeOptions.vecPath, resumeOptions.itrPath] ∧
        rd.state.x.vals = [1 / 2, 1 / 4] ∧ rd.state.xPhys.vals = [3 / 4, 1 / 8] ∧
        rd.state.xo1.map Vec.vals = some [2 / 5, 1 / 5] ∧
        rd.state.xo2.map Vec.vals = some [3 / 10, 3 / 10] ∧
        rd.state.U.map Vec.vals = some [1, 1] ∧ rd.state.L.map Vec.vals = some [0, 0] ∧
        rd.itr = 17 ∧ rd.state.fscale = 12345680 ∧
        rd.mma = MMA.fromDesign (VecGetSize freshState.x) freshState.m rd.state.x
          (List.replicate freshState.m 0) (List.replicate freshState.m 1000)
          (List.replicate freshState.m 0) :=
  ⟨resumes_checkpointFS,
    design_only_resume resumeOptions checkpointFS freshState 0 _ _ _ _ _ _ _ _ _
      resumes_checkpointFS rfl rfl⟩

/-! ## Theorems: the fatal exit of `SetUpMESH` -/

theorem mgCheck_eq_some_iff (DIM : Dim) (s : MeshState) (a : Axis) :
    mgCheck DIM s.nxyz0 s.nxyz1 s.nxyz2 s.nlvls = some a ↔ FirstFailing DIM s a := by
  cases hx : mgIncompatible s.nxyz0 s.nlvls <;> cases hy : mgIncompatible s.nxyz1 s.nlvls <;>
    cases hz : mgIncompatible s.nxyz2 s.nlvls <;> cases a <;> cases DIM <;>
    simp [mgCheck, FirstFailing, hx, hy, hz]

theorem TestFails.firstFailing {DIM : Dim} {s : MeshState} (h : TestFails DIM s) :
    ∃ a, FirstFailing DIM s a := by
  unfold TestFails at h
  cases hx : mgIncompatible s.nxyz0 s.nlvls with
  | true => exact ⟨Axis.X, hx⟩
  | false =>
    cases hy : mgIncompatible s.nxyz1 s.nlvls with
    | true => exact ⟨Axis.Y, hx, hy⟩
    | false =>
      rw [hx, hy] at h
      rcases h with h | h | ⟨hd, hz⟩
      · exact absurd h (by simp)
      · exact absurd h (by simp)
      · exact ⟨Axis.Z, hd, hx, hy, hz⟩

theorem SetUpMESH_exited (DIM : Dim) (PHYSICS : Physics) (o : MeshOptions)
    (LxCorrect LyCorrect LzCorrect : List PetscInt) (s0 : MeshState) (a : Axis)
    (h : mgCheck DIM (readMeshOptions DIM o s0).nxyz0 (readMeshOptions DIM o s0).nxyz1
      (readMeshOptions DIM o s0).nxyz2 (readMeshOptions DIM o s0).nlvls = some a) :
    SetUpMESH DIM PHYSICS o LxCorrect LyCorrect LzCorrect s0 =
      MeshResult.exited a ((readMeshOptions DIM o s0).nodes a)
        ((readMeshOptions DIM o s0).nlvls - 1) := by
  cases a <;> simp [SetUpMESH, h, MeshState.nodes]

theorem readMeshOptions_grids (DIM : Dim) (o : MeshOptions) (s : MeshState) :
    (readMeshOptions DIM o s).da_nodes = s.da_nodes ∧
      (readMeshOptions DIM o s).da_elem = s.da_elem := by
  cases DIM <;> simp [readMeshOptions]

theorem SetUpDefaults_grids (DIM : Dim) (PHYSICS : Physics) (s : MeshState) :
    (SetUpDefaults DIM PHYSICS s).da_nodes = s.da_nodes ∧
      (SetUpDefaults DIM PHYSICS s).da_elem = s.da_elem := by
  cases DIM <;> cases PHYSICS <;> simp [SetUpDefaults]

/-- C11: when the compatibility test fails for the node counts and the level
count in force after the options are read, the construction ends in `exit (0)`
at the first failing axis in the order x, y, z, with the diagnostic that names
this axis, its node count and `nlvls - 1`; at that moment the node grid and the
element grid are still null, and no object with vectors results (`SetUpOPT`
is not reached). -/
theorem Init_exits_at_first_failing_axis (DIM : Dim) (PHYSICS : Physics) (mo : MeshOptions)
    (oo : OptOptions) (LxCorrect LyCorrect LzCorrect : List PetscInt) (m : Nat)
    (s0 s : MeshState) (u : Untouched)
    (hs : readMeshOptions DIM mo
      (SetUpDefaults DIM PHYSICS { s0 with da_nodes := none, da_elem := none }) = s)
    (hfail : TestFails DIM s) :
    ∃ a, FirstFailing DIM s a ∧
      Init DIM PHYSICS mo oo LxCorrect LyCorrect LzCorrect m s0 u =
        SetUpResult.exited a (s.nodes a) (s.nlvls - 1) s ∧
      s.da_nodes = none ∧ s.da_elem = none ∧
      ∀ mesh c, Init DIM PHYSICS mo oo LxCorrect LyCorrect LzCorrect m s0 u ≠
        SetUpResult.returned mesh c := by
  obtain ⟨a, ha⟩ := hfail.firstFailing
  have hc := (mgCheck_eq_some_iff DIM s a).2 ha
  have hI : Init DIM PHYSICS mo oo LxCorrect LyCorrect LzCorrect m s0 u =
      SetUpResult.exited a (s.nodes a) (s.nlvls - 1) s := by
    rw [← hs] at hc
    simp only [Init, SetUp, SetUpMESH_exited DIM PHYSICS mo LxCorrect LyCorrect LzCorrect _ a hc,
      hs]
  have hg1 := readMeshOptions_grids DIM mo
    (SetUpDefaults DIM PHYSICS { s0 with da_nodes := none, da_elem := none })
  have hg2 := SetUpDefaults_grids DIM PHYSICS { s0 with da_nodes := none, da_elem := none }
  rw [hs] at hg1
  refine ⟨a, ha, hI, ?_, ?_, ?_⟩
  · rw [hg1.1, hg2.1]
  · rw [hg1.2, hg2.2]
  · intro mesh c
    rw [hI]
    exact fun h => SetUpResult.noConfusion h

theorem Init_exits_at_first_failing_axis_witness :
    readMeshOptions Dim.three { ny := some 122 }
        (SetUpDefaults Dim.three Physics.elasticity
          { defaults3D Physics.heat with da_nodes := none, da_elem := none })
        = { defaults3D Physics.elasticity with nxyz1 := 122 } ∧
      TestFails Dim.three { defaults3D Physics.elasticity with nxyz1 := 122 } ∧
      ∃ a, FirstFailing Dim.three { defaults3D Physics.elasticity with nxyz1 := 122 } a ∧
        Init Dim.three Physics.elasticity { ny := some 122 } {} [65] [122] [33] 1
            (defaults3D Physics.heat)
            { restart := false, flip := false, fscale := 0, heap := fun _ => 0 } =
          SetUpResult.exited a
            (MeshState.nodes { defaults3D Physics.elasticity with nxyz1 := 122 } a)
            (4 - 1) { defaults3D Physics.elasticity with nxyz1 := 122 } ∧
        ({ defaults3D Physics.elasticity with nxyz1 := 122 } : MeshState).da_nodes = none ∧
        ({ defaults3D Physics.elasticity with nxyz1 := 122 } : MeshState).da_elem = none ∧
        ∀ mesh c, Init Dim.three Physics.elasticity { ny := some 122 } {} [65] [122] [33] 1
            (defaults3D Physics.heat)
            { restart := false, flip := false, fscale := 0, heap := fun _ => 0 } ≠
          SetUpResult.returned mesh c :=
  ⟨rfl,
    Or.inr (Or.inl
      ((mgIncompatible_eq_true_iff 122 4 (by decide) (by decide) (by decide)).2 (by decide))),
    Init_exits_at_first_failing_axis Dim.three Physics.elasticity { ny := some 122 } {}
      [65] [122] [33] 1 (defaults3D Physics.heat)
      { defaults3D Physics.elasticity with nxyz1 := 122 }
      { restart := false, flip := false, fscale := 0, heap := fun _ => 0 } rfl
      (Or.inr (Or.inl
        ((mgIncompatible_eq_true_iff 122 4 (by decide) (by decide) (by decide)).2 (by decide))))⟩

/-! ## Theorems: what `SetUpMESH` and `SetUpOPT` build -/

/-- The members and the two grids after a `SetUpMESH` that returns, in terms of
the members `s` after the options are read. -/
theorem SetUpMESH_returned_facts (DIM : Dim) (PHYSICS : Physics) (o : MeshOptions)
    (LxCorrect LyCorrect LzCorrect : List PetscInt) (s0 s t : MeshState)
    (hs : readMeshOptions DIM o s0 = s)
    (h : SetUpMESH DIM PHYSICS o LxCorrect LyCorrect LzCorrect s0 = MeshResult.returned t) :
    ∃ nodes elem cn ce, t.da_nodes = some nodes ∧ t.da_elem = some elem ∧
      nodes.coordinates = some cn ∧ elem.coordinates = some ce ∧
      mgCheck DIM s.nxyz0 s.nxyz1 s.nxyz2 s.nlvls = none ∧
      (t.nxyz0 = s.nxyz0 ∧ t.nxyz1 = s.nxyz1 ∧ t.nxyz2 = s.nxyz2 ∧ t.nlvls = s.nlvls ∧
        t.penal = s.penal) ∧
      (t.dx = spacing s.xc0 s.xc1 s.nxyz0 ∧ t.dy = spacing s.xc2 s.xc3 s.nxyz1 ∧
        (DIM = Dim.three → t.dz = spacing s.xc4 s.xc5 s.nxyz2)) ∧
      (nodes.M = s.nxyz0 ∧ nodes.N = s.nxyz1 ∧ (DIM = Dim.three → nodes.P = s.nxyz2)) ∧
      (nodes.lx = LxCorrect ∧ nodes.ly = LyCorrect ∧ (DIM = Dim.three → nodes.lz = LzCorrect)) ∧
      (elem.M = s.nxyz0 - 1 ∧ elem.N = s.nxyz1 - 1 ∧
        (DIM = Dim.three → elem.P = s.nxyz2 - 1)) ∧
      (elem.lx = elemPartition LxCorrect.length LxCorrect ∧
        elem.ly = elemPartition LyCorrect.length LyCorrect ∧
        (DIM = Dim.three → elem.lz = elemPartition LzCorrect.length LzCorrect)) ∧
      (cn.xmin = some s.xc0 ∧ cn.xmax = some s.xc1 ∧ cn.ymin = some s.xc2 ∧
        cn.ymax = some s.xc3 ∧
        (DIM = Dim.three → cn.zmin = some s.xc4 ∧ cn.zmax = some s.xc5)) ∧
      (ce.xmin = t.dx.map (fun d => s.xc0 + d / 2) ∧ ce.xmax = t.dx.map (fun d => s.xc1 - d / 2) ∧
        ce.ymin = t.dy.map (fun d => s.xc2 + d / 2) ∧
        ce.ymax = t.dy.map (fun d => s.xc3 - d / 2) ∧
        (DIM = Dim.three → ce.zmin = t.dz.map (fun d => s.xc4 + d / 2) ∧
          ce.zmax = t.dz.map (fun d => s.xc5 - d / 2))) := by
  subst hs
  cases hc : mgCheck DIM (readMeshOptions DIM o s0).nxyz0 (readMeshOptions DIM o s0).nxyz1
      (readMeshOptions DIM o s0).nxyz2 (readMeshOptions DIM o s0).nlvls with
  | some a => cases a <;> simp [SetUpMESH, hc] at h
  | none =>
    cases DIM with
    | two =>
      simp only [SetUpMESH, hc, MeshResult.returned.injEq] at h
      subst h
      exact ⟨_, _, _, _, rfl, rfl, rfl, rfl, rfl, ⟨rfl, rfl, rfl, rfl, rfl⟩,
        ⟨rfl, rfl, by simp⟩, ⟨rfl, rfl, by simp⟩, ⟨rfl, rfl, by simp⟩, ⟨rfl, rfl, by simp⟩,
        ⟨rfl, rfl, by simp⟩, ⟨rfl, rfl, rfl, rfl, by simp⟩, ⟨rfl, rfl, rfl, rfl, by simp⟩⟩
    | three =>
      simp only [SetUpMESH, hc, MeshResult.returned.injEq] at h
      subst h
      exact ⟨_, _, _, _, rfl, rfl, rfl, rfl, rfl, ⟨rfl, rfl, rfl, rfl, rfl⟩,
        ⟨rfl, rfl, fun _ => rfl⟩, ⟨rfl, rfl, fun _ => rfl⟩, ⟨rfl, rfl, fun _ => rfl⟩,
        ⟨rfl, rfl, fun _ => rfl⟩, ⟨rfl, rfl, fun _ => rfl⟩,
        ⟨rfl, rfl, rfl, rfl, fun _ => ⟨rfl, rfl⟩⟩, ⟨rfl, rfl, rfl, rfl, fun _ => ⟨rfl, rfl⟩⟩⟩

theorem builtMesh_eq :
    SetUpMESH Dim.three Physics.heat tinyOptions [3] [2] [2]
      (SetUpDefaults Dim.three Physics.heat
        { defaults3D Physics.heat with da_nodes := none, da_elem := none })
      = MeshResult.returned builtMesh := by
  have h1 : mgIncompatible 3 1 = false := by
    rw [mgIncompatible_eq_false_iff 3 1 (by decide) (by decide) (by decide)]; decide
  have h2 : mgIncompatible 2 1 = false := by
    rw [mgIncompatible_eq_false_iff 2 1 (by decide) (by decide) (by decide)]; decide
  simp [SetUpMESH, SetUpDefaults, mgCheck, readMeshOptions, defaults3D, tinyOptions, h1, h2,
    builtMesh, builtNodes, builtElem, spacing, elemPartition, numnodaldof, List.range_succ]
  norm_num

theorem dgdx_loop (m : Nat) (d : Vec) :
    ((List.range m).map fun i => VecSet ((VecDuplicateVecs d m).getD i (VecDuplicate d)) 0)
      = List.replicate m (VecSet (VecDuplicate d) 0) := by
  apply List.ext_getElem
  · simp
  · intro i h1 h2
    simp [VecDuplicateVecs, List.getD_eq_getElem?_getD]

/-- The object that `SetUpOPT` allocates on two grids, field by field. -/
theorem SetUpOPT_some (mo : MeshOptions) (oo : OptOptions) (nodes elem : DMDA) (m : Nat)
    (p : OptParams) (u : Untouched) :
    SetUpOPT mo oo (some nodes) (some elem) m p u = some
      { params := readOptOptions mo oo p, n := (elem.globalSize : Int),
        state :=
          { m := m, restart := u.restart, flip := u.flip, fscale := u.fscale,
            x := constVec elem (readOptOptions mo oo p).volfrac,
            xTilde := constVec elem (readOptOptions mo oo p).volfrac,
            xPhys := constVec elem (readOptOptions mo oo p).volfrac,
            dfdx := constVec elem 0,
            dgdx := List.replicate m (constVec elem 0),
            gx := (List.range m).map u.heap,
            xold := constVec elem (readOptOptions mo oo p).volfrac,
            xmin := constVec elem 0, xmax := constVec elem 0,
            xo1 := u.xo1, xo2 := u.xo2, U := u.U, L := u.L,
            xPassive0 := constVec elem 0, xPassive1 := constVec elem 0,
            xPassive2 := constVec elem 0, xPassive3 := constVec elem 0,
            nodeDensity := constVec nodes 0, nodeAddingCounts := constVec nodes 0,
            filename00 := u.filename00, filename00Itr := u.filename00Itr,
            filename01 := u.filename01, filename01Itr := u.filename01Itr } } := by
  simp only [SetUpOPT, dgdx_loop]
  simp [constVec, DMCreateGlobalVector, VecDuplicate, VecSet, VecGetSize]

theorem readOptOptions_volfrac (mo : MeshOptions) (oo : OptOptions) (p : OptParams) :
    (readOptOptions mo oo p).volfrac = oo.volfrac.getD p.volfrac := by
  by_cases h : oo.filter.getD p.filter = 0 <;> simp [readOptOptions, h]

theorem builtObject_eq :
    Init Dim.three Physics.heat tinyOptions {} [3] [2] [2] 3 (defaults3D Physics.heat)
      rawMembers = SetUpResult.returned builtMesh builtObject := by
  unfold Init SetUp
  simp only [builtMesh_eq]
  rw [show builtMesh.da_nodes = some builtNodes from rfl,
    show builtMesh.da_elem = some builtElem from rfl, SetUpOPT_some]
  have hp : ({ SetUpParams Dim.three Physics.heat
          (SetUpDefaults Dim.three Physics.heat
            { defaults3D Physics.heat with da_nodes := none, da_elem := none }) with
        penal := builtMesh.penal } : OptParams)
      = { SetUpParams Dim.three Physics.heat (defaults3D Physics.heat) with penal := 3 } := rfl
  rw [hp]
  have hv : (readOptOptions tinyOptions {}
      { SetUpParams Dim.three Physics.heat (defaults3D Physics.heat) with penal := 3 }).volfrac
      = 3 / 10 := by
    rw [readOptOptions_volfrac]; rfl
  rw [hv]
  have hs : builtElem.globalSize = 2 := rfl
  simp only [hs]
  rfl

/-- A constructed object comes from a `SetUpMESH` that returned and from the
`SetUpOPT` that ran on its two grids. -/
theorem Init_returned_inv (DIM : Dim) (PHYSICS : Physics) (mo : MeshOptions)
    (oo : OptOptions) (LxCorrect LyCorrect LzCorrect : List PetscInt) (m : Nat)
    (s0 mesh : MeshState) (u : Untouched) (c : Constructed)
    (h : Init DIM PHYSICS mo oo LxCorrect LyCorrect LzCorrect m s0 u =
      SetUpResult.returned mesh c) :
    SetUpMESH DIM PHYSICS mo LxCorrect LyCorrect LzCorrect
        (SetUpDefaults DIM PHYSICS { s0 with da_nodes := none, da_elem := none })
      = MeshResult.returned mesh ∧
    ∃ nodes elem p u1, mesh.da_nodes = some nodes ∧ mesh.da_elem = some elem ∧
      p.volfrac = defaultVolfrac DIM PHYSICS ∧
      SetUpOPT mo oo (some nodes) (some elem) m p u1 = some c := by
  unfold Init SetUp at h
  cases hM : SetUpMESH DIM PHYSICS mo LxCorrect LyCorrect LzCorrect
      (SetUpDefaults DIM PHYSICS { s0 with da_nodes := none, da_elem := none }) with
  | exited a n k => simp [hM] at h
  | returned t =>
    simp only [hM] at h
    obtain ⟨nodes, elem, -, -, hn, he, -⟩ :=
      SetUpMESH_returned_facts DIM PHYSICS mo LxCorrect LyCorrect LzCorrect _ _ t rfl hM
    cases hO : SetUpOPT mo oo t.da_nodes t.da_elem m
        { SetUpParams DIM PHYSICS
            (SetUpDefaults DIM PHYSICS { s0 with da_nodes := none, da_elem := none }) with
          penal := t.penal }
        { restart := true, flip := u.flip, fscale := u.fscale, xo1 := none, xo2 := none,
          U := none, L := none, filename00 := u.filename00, filename00Itr := u.filename00Itr,
          filename01 := u.filename01, filename01Itr := u.filename01Itr, heap := u.heap } with
    | none => simp [hO] at h
    | some c1 =>
      simp only [hO, SetUpResult.returned.injEq] at h
      obtain ⟨rfl, rfl⟩ := h
      exact ⟨rfl, nodes, elem,
        { SetUpParams DIM PHYSICS
            (SetUpDefaults DIM PHYSICS { s0 with da_nodes := none, da_elem := none }) with
          penal := t.penal },
        { restart := true, flip := u.flip, fscale := u.fscale, xo1 := none, xo2 := none,
          U := none, L := none, filename00 := u.filename00, filename00Itr := u.filename00Itr,
          filename01 := u.filename01, filename01Itr := u.filename01Itr, heap := u.heap },
        hn, he, rfl, by rw [← hn, ← he]; exact hO⟩

theorem constVec_allEq (da : DMDA) (a : PetscScalar) : (constVec da a).AllEq a := by
  intro e he
  exact List.eq_of_mem_replicate he

theorem VecDuplicate_constVec (da : DMDA) (a : PetscScalar) :
    VecDuplicate (constVec da a) = constVec da 0 := by
  simp [VecDuplicate, constVec]

/-- Every vector of a constructed object, in terms of the two grids and of the
volume fraction in force. -/
theorem Init_returned_object (DIM : Dim) (PHYSICS : Physics) (mo : MeshOptions)
    (oo : OptOptions) (LxCorrect LyCorrect LzCorrect : List PetscInt) (m : Nat)
    (s0 mesh : MeshState) (u : Untouched) (c : Constructed)
    (h : Init DIM PHYSICS mo oo LxCorrect LyCorrect LzCorrect m s0 u =
      SetUpResult.returned mesh c) :
    ∃ nodes elem, mesh.da_nodes = some nodes ∧ mesh.da_elem = some elem ∧
      c.params.volfrac = oo.volfrac.getD (defaultVolfrac DIM PHYSICS) ∧
      c.n = (elem.globalSize : Int) ∧ c.state.m = m ∧
      (c.state.x = constVec elem c.params.volfrac ∧
        c.state.xTilde = constVec elem c.params.volfrac ∧
        c.state.xPhys = constVec elem c.params.volfrac ∧
        c.state.xold = constVec elem c.params.volfrac) ∧
      (c.state.xmin = constVec elem 0 ∧ c.state.xmax = constVec elem 0) ∧
      (c.state.dfdx = constVec elem 0 ∧ c.state.dgdx = List.replicate m (constVec elem 0) ∧
        c.state.gx.length = m) ∧
      (c.state.xPassive0 = constVec elem 0 ∧ c.state.xPassive1 = constVec elem 0 ∧
        c.state.xPassive2 = constVec elem 0 ∧ c.state.xPassive3 = constVec elem 0) ∧
      (c.state.nodeDensity = constVec nodes 0 ∧ c.state.nodeAddingCounts = constVec nodes 0) := by
  obtain ⟨-, nodes, elem, p, u1, hn, he, hp, hO⟩ :=
    Init_returned_inv DIM PHYSICS mo oo LxCorrect LyCorrect LzCorrect m s0 mesh u c h
  rw [SetUpOPT_some] at hO
  simp only [Option.some.injEq] at hO
  subst hO
  refine ⟨nodes, elem, hn, he, ?_, rfl, rfl, ⟨rfl, rfl, rfl, rfl⟩, ⟨rfl, rfl⟩, ⟨rfl, rfl, ?_⟩,
    ⟨rfl, rfl, rfl, rfl⟩, ⟨rfl, rfl⟩⟩
  · show (readOptOptions mo oo p).volfrac = _
    rw [readOptOptions_volfrac, hp]
  · simp

theorem builtObject_volfrac : builtObject.params.volfrac = 3 / 10 := by
  show (readOptOptions tinyOptions {} _).volfrac = 3 / 10
  rw [readOptOptions_volfrac]; rfl

/-! ## Theorems: the fields after `SetUpOPT` -/

/-- C12 as stated fails: in the object constructed for `tinyOptions` the volume
fraction is 3/10, and `xmin` and `xmax` are `[0, 0]`, not 3/10 in every
entry. -/
theorem bounds_not_volfrac :
    Init Dim.three Physics.heat tinyOptions {} [3] [2] [2] 3 (defaults3D Physics.heat)
        rawMembers = SetUpResult.returned builtMesh builtObject ∧
      builtObject.params.volfrac = 3 / 10 ∧
      builtObject.state.xmin.vals = [0, 0] ∧ builtObject.state.xmax.vals = [0, 0] ∧
      ¬ builtObject.state.xmin.AllEq builtObject.params.volfrac ∧
      ¬ builtObject.state.xmax.AllEq builtObject.params.volfrac := by
  have hmin : builtObject.state.xmin.vals = [0, 0] := rfl
  have hmax : builtObject.state.xmax.vals = [0, 0] := rfl
  refine ⟨builtObject_eq, builtObject_volfrac, hmin, hmax, ?_, ?_⟩
  · intro hall
    have := hall 0 (by rw [hmin]; simp)
    rw [builtObject_volfrac] at this
    norm_num at this
  · intro hall
    have := hall 0 (by rw [hmax]; simp)
    rw [builtObject_volfrac] at this
    norm_num at this

/-- C12, amended: after `SetUpOPT` the previous-iteration field `xold` equals the
volume-fraction target in every entry (and has one entry per element); the
bound fields `xmin` and `xmax` are created as duplicates of `x`, with its
layout and size, and `SetUpOPT` assigns them no value. -/
theorem Init_xold_and_bounds (DIM : Dim) (PHYSICS : Physics) (mo : MeshOptions)
    (oo : OptOptions) (LxCorrect LyCorrect LzCorrect : List PetscInt) (m : Nat)
    (s0 mesh : MeshState) (u : Untouched) (c : Constructed)
    (h : Init DIM PHYSICS mo oo LxCorrect LyCorrect LzCorrect m s0 u =
      SetUpResult.returned mesh c) :
    ∃ elem, mesh.da_elem = some elem ∧
      c.state.xold.AllEq c.params.volfrac ∧ c.state.xold.vals.length = elem.globalSize ∧
      c.state.xmin = VecDuplicate c.state.x ∧ c.state.xmax = VecDuplicate c.state.x ∧
      c.state.xmin.layout = c.state.x.layout ∧
      c.state.xmin.vals.length = c.state.x.vals.length ∧
      c.state.xmax.layout = c.state.x.layout ∧
      c.state.xmax.vals.length = c.state.x.vals.length := by
  obtain ⟨nodes, elem, -, he, -, -, -, ⟨hx, -, -, hxold⟩, ⟨hmin, hmax⟩, -⟩ :=
    Init_returned_object DIM PHYSICS mo oo LxCorrect LyCorrect LzCorrect m s0 mesh u c h
  refine ⟨elem, he, ?_, ?_, ?_, ?_, ?_, ?_, ?_, ?_⟩
  · rw [hxold]; exact constVec_allEq _ _
  · rw [hxold]; simp [constVec]
  · rw [hmin, hx, VecDuplicate_constVec]
  · rw [hmax, hx, VecDuplicate_constVec]
  · rw [hmin, hx]; rfl
  · rw [hmin, hx]; simp [constVec]
  · rw [hmax, hx]; rfl
  · rw [hmax, hx]; simp [constVec]

theorem Init_xold_and_bounds_witness :
    Init Dim.three Physics.heat tinyOptions {} [3] [2] [2] 3 (defaults3D Physics.heat)
        rawMembers = SetUpResult.returned builtMesh builtObject ∧
      ∃ elem, builtMesh.da_elem = some elem ∧
        builtObject.state.xold.AllEq builtObject.params.volfrac ∧
        builtObject.state.xold.vals.length = elem.globalSize ∧
        builtObject.state.xmin = VecDuplicate builtObject.state.x ∧
        builtObject.state.xmax = VecDuplicate builtObject.state.x ∧
        builtObject.state.xmin.layout = builtObject.state.x.layout ∧
        builtObject.state.xmin.vals.length = builtObject.state.x.vals.length ∧
        builtObject.state.xmax.layout = builtObject.state.x.layout ∧
        builtObject.state.xmax.vals.length = builtObject.state.x.vals.length :=
  ⟨builtObject_eq,
    Init_xold_and_bounds Dim.three Physics.heat tinyOptions {} [3] [2] [2] 3
      (defaults3D Physics.heat) builtMesh rawMembers builtObject builtObject_eq⟩

/-- C13: after `SetUpOPT` the design field `x`, the filtered field `xTilde` and the
physical-density field `xPhys` have one entry per element, and every entry
equals the volume-fraction target in force after the options are read: the
`-volfrac` option when it is given, the default of the build variant
otherwise. -/
theorem Init_design_fields (DIM : Dim) (PHYSICS : Physics) (mo : MeshOptions)
    (oo : OptOptions) (LxCorrect LyCorrect LzCorrect : List PetscInt) (m : Nat)
    (s0 mesh : MeshState) (u : Untouched) (c : Constructed)
    (h : Init DIM PHYSICS mo oo LxCorrect LyCorrect LzCorrect m s0 u =
      SetUpResult.returned mesh c) :
    ∃ elem, mesh.da_elem = some elem ∧
      c.params.volfrac = oo.volfrac.getD (defaultVolfrac DIM PHYSICS) ∧
      c.state.x.AllEq c.params.volfrac ∧ c.state.xTilde.AllEq c.params.volfrac ∧
      c.state.xPhys.AllEq c.params.volfrac ∧
      c.state.x.vals.length = elem.globalSize ∧ c.state.xTilde.vals.length = elem.globalSize ∧
      c.state.xPhys.vals.length = elem.globalSize := by
  obtain ⟨nodes, elem, -, he, hv, -, -, ⟨hx, hxT, hxP, -⟩, -⟩ :=
    Init_returned_object DIM PHYSICS mo oo LxCorrect LyCorrect LzCorrect m s0 mesh u c h
  refine ⟨elem, he, hv, ?_, ?_, ?_, ?_, ?_, ?_⟩
  · rw [hx]; exact constVec_allEq _ _
  · rw [hxT]; exact constVec_allEq _ _
  · rw [hxP]; exact constVec_allEq _ _
  · rw [hx]; simp [constVec]
  · rw [hxT]; simp [constVec]
  · rw [hxP]; simp [constVec]

theorem Init_design_fields_witness :
    Init Dim.three Physics.heat tinyOptions {} [3] [2] [2] 3 (defaults3D Physics.heat)
        rawMembers = SetUpResult.returned builtMesh builtObject ∧
      ∃ elem, builtMesh.da_elem = some elem ∧
        builtObject.params.volfrac
          = ({} : OptOptions).volfrac.getD (defaultVolfrac Dim.three Physics.heat) ∧
        builtObject.state.x.AllEq builtObject.params.volfrac ∧
        builtObject.state.xTilde.AllEq builtObject.params.volfrac ∧
        builtObject.state.xPhys.AllEq builtObject.params.volfrac ∧
        builtObject.state.x.vals.length = elem.globalSize ∧
        builtObject.state.xTilde.vals.length = elem.globalSize ∧
        builtObject.state.xPhys.vals.length = elem.globalSize :=
  ⟨builtObject_eq,
    Init_design_fields Dim.three Physics.heat tinyOptions {} [3] [2] [2] 3
      (defaults3D Physics.heat) builtMesh rawMembers builtObject builtObject_eq⟩

/-- C14: for every constraint count `m`, after `SetUpOPT` the constraint-value
array `gx` has length `m`, there are `m` constraint-gradient fields `dgdx[i]`,
and the objective gradient `dfdx`, every `dgdx[i]`, the four passive-region
fields, `nodeDensity` and `nodeAddingCounts` are zero in every entry (with one
entry per element, respectively per node degree of freedom). -/
theorem Init_zero_fields (DIM : Dim) (PHYSICS : Physics) (mo : MeshOptions)
    (oo : OptOptions) (LxCorrect LyCorrect LzCorrect : List PetscInt) (m : Nat)
    (s0 mesh : MeshState) (u : Untouched) (c : Constructed)
    (h : Init DIM PHYSICS mo oo LxCorrect LyCorrect LzCorrect m s0 u =
      SetUpResult.returned mesh c) :
    ∃ nodes elem, mesh.da_nodes = some nodes ∧ mesh.da_elem = some elem ∧
      c.state.gx.length = m ∧ c.state.dgdx.length = m ∧
      c.state.dfdx.AllEq 0 ∧ c.state.dfdx.vals.length = elem.globalSize ∧
      (∀ g ∈ c.state.dgdx, g.AllEq 0 ∧ g.vals.length = elem.globalSize) ∧
      c.state.xPassive0.AllEq 0 ∧ c.state.xPassive1.AllEq 0 ∧
      c.state.xPassive2.AllEq 0 ∧ c.state.xPassive3.AllEq 0 ∧
      c.state.xPassive0.vals.length = elem.globalSize ∧
      c.state.xPassive1.vals.length = elem.globalSize ∧
      c.state.xPassive2.vals.length = elem.globalSize ∧
      c.state.xPassive3.vals.length = elem.globalSize ∧
      c.state.nodeDensity.AllEq 0 ∧ c.state.nodeAddingCounts.AllEq 0 ∧
      c.state.nodeDensity.vals.length = nodes.globalSize ∧
      c.state.nodeAddingCounts.vals.length = nodes.globalSize := by
  obtain ⟨nodes, elem, hn, he, -, -, -, -, -, ⟨hdf, hdg, hgx⟩, ⟨h0, h1, h2, h3⟩, ⟨hnd, hna⟩⟩ :=
    Init_returned_object DIM PHYSICS mo oo LxCorrect LyCorrect LzCorrect m s0 mesh u c h
  refine ⟨nodes, elem, hn, he, hgx, ?_, ?_, ?_, ?_, ?_, ?_, ?_, ?_, ?_, ?_, ?_, ?_, ?_, ?_, ?_,
    ?_⟩
  · rw [hdg]; simp
  · rw [hdf]; exact constVec_allEq _ _
  · rw [hdf]; simp [constVec]
  · intro g hg
    rw [hdg] at hg
    rw [List.eq_of_mem_replicate hg]
    exact ⟨constVec_allEq _ _, by simp [constVec]⟩
  · rw [h0]; exact constVec_allEq _ _
  · rw [h1]; exact constVec_allEq _ _
  · rw [h2]; exact constVec_allEq _ _
  · rw [h3]; exact constVec_allEq _ _
  · rw [h0]; simp [constVec]
  · rw [h1]; simp [constVec]
  · rw [h2]; simp [constVec]
  · rw [h3]; simp [constVec]
  · rw [hnd]; exact constVec_allEq _ _
  · rw [hna]; exact constVec_allEq _ _
  · rw [hnd]; simp [constVec]
  · rw [hna]; simp [constVec]

theorem Init_zero_fields_witness :
    Init Dim.three Physics.heat tinyOptions {} [3] [2] [2] 3 (defaults3D Physics.heat)
        rawMembers = SetUpResult.returned builtMesh builtObject ∧
      ∃ nodes elem, builtMesh.da_nodes = some nodes ∧ builtMesh.da_elem = some elem ∧
        builtObject.state.gx.length = 3 ∧ builtObject.state.dgdx.length = 3 ∧
        builtObject.state.dfdx.AllEq 0 ∧ builtObject.state.dfdx.vals.length = elem.globalSize ∧
        (∀ g ∈ builtObject.state.dgdx, g.AllEq 0 ∧ g.vals.length = elem.globalSize) ∧
        builtObject.state.xPassive0.AllEq 0 ∧ builtObject.state.xPassive1.AllEq 0 ∧
        builtObject.state.xPassive2.AllEq 0 ∧ builtObject.state.xPassive3.AllEq 0 ∧
        builtObject.state.xPassive0.vals.length = elem.globalSize ∧
        builtObject.state.xPassive1.vals.length = elem.globalSize ∧
        builtObject.state.xPassive2.vals.length = elem.globalSize ∧
        builtObject.state.xPassive3.vals.length = elem.globalSize ∧
        builtObject.state.nodeDensity.AllEq 0 ∧ builtObject.state.nodeAddingCounts.AllEq 0 ∧
        builtObject.state.nodeDensity.vals.length = nodes.globalSize ∧
        builtObject.state.nodeAddingCounts.vals.length = nodes.globalSize :=
  ⟨builtObject_eq,
    Init_zero_fields Dim.three Physics.heat tinyOptions {} [3] [2] [2] 3
      (defaults3D Physics.heat) builtMesh rawMembers builtObject builtObject_eq⟩

/-- With restart enabled, the four history vectors that `AllocateMMAwithRestart`
leaves behind have the layout of `x`, on the cold path and on the resume path. -/
theorem AllocateMMAwithRestart_history_layout (o : RestartOptions) (fs : FS) (s : State)
    (itr : PetscInt) (r : Allocated) (h : o.restart.getD true = true)
    (hr : AllocateMMAwithRestart o fs s itr = some r) :
    ∃ h1 h2 h3 h4, r.state.xo1 = some h1 ∧ r.state.xo2 = some h2 ∧ r.state.U = some h3 ∧
      r.state.L = some h4 ∧ h1.layout = s.x.layout ∧ h2.layout = s.x.layout ∧
      h3.layout = s.x.layout ∧ h4.layout = s.x.layout := by
  cases hres : resumes o fs with
  | true =>
    obtain ⟨x, xPhys, xo1, xo2, U, L, rest, i, f, hvec, hitr⟩ :=
      AllocateMMAwithRestart_resume_inv o fs s itr r hres hr
    rw [AllocateMMAwithRestart_resume o fs s itr x xPhys xo1 xo2 U L rest i f hres hvec hitr]
      at hr
    simp only [Option.some.injEq] at hr
    rw [← hr]
    exact ⟨_, _, _, _, rfl, rfl, rfl, rfl, rfl, rfl, rfl, rfl⟩
  | false =>
    rw [AllocateMMAwithRestart_cold o fs s itr hres] at hr
    simp only [Option.some.injEq] at hr
    rw [← hr]
    refine ⟨VecDuplicate s.x, VecDuplicate s.x, VecDuplicate s.x, VecDuplicate s.x, ?_, ?_, ?_,
      ?_, rfl, rfl, rfl, rfl⟩ <;> simp [State.prepared, h]

/-- C15: in a constructed object every element-domain field (`x`, `xTilde`,
`xPhys`, `xold`, `xmin`, `xmax`, `dfdx`, each `dgdx[i]`, `xPassive0` to
`xPassive3`) has the layout of the element grid `da_elem`, and the node-domain
fields `nodeDensity` and `nodeAddingCounts` have the layout of the node grid
`da_nodes`; the history vectors `xo1`, `xo2`, `U`, `L` that
`AllocateMMAwithRestart` then allocates (restart enabled) have the layout of
the element grid too. -/
theorem Init_layouts (DIM : Dim) (PHYSICS : Physics) (mo : MeshOptions)
    (oo : OptOptions) (LxCorrect LyCorrect LzCorrect : List PetscInt) (m : Nat)
    (s0 mesh : MeshState) (u : Untouched) (c : Constructed)
    (ro : RestartOptions) (fs : FS) (itr : PetscInt) (r : Allocated)
    (h : Init DIM PHYSICS mo oo LxCorrect LyCorrect LzCorrect m s0 u =
      SetUpResult.returned mesh c)
    (hro : ro.restart.getD true = true)
    (hr : AllocateMMAwithRestart ro fs c.state itr = some r) :
    ∃ nodes elem, mesh.da_nodes = some nodes ∧ mesh.da_elem = some elem ∧
      c.state.x.layout = elem ∧ c.state.xTilde.layout = elem ∧ c.state.xPhys.layout = elem ∧
      c.state.xold.layout = elem ∧ c.state.xmin.layout = elem ∧ c.state.xmax.layout = elem ∧
      c.state.dfdx.layout = elem ∧ (∀ g ∈ c.state.dgdx, g.layout = elem) ∧
      c.state.xPassive0.layout = elem ∧ c.state.xPassive1.layout = elem ∧
      c.state.xPassive2.layout = elem ∧ c.state.xPassive3.layout = elem ∧
      c.state.nodeDensity.layout = nodes ∧ c.state.nodeAddingCounts.layout = nodes ∧
      ∃ h1 h2 h3 h4, r.state.xo1 = some h1 ∧ r.state.xo2 = some h2 ∧ r.state.U = some h3 ∧
        r.state.L = some h4 ∧ h1.layout = elem ∧ h2.layout = elem ∧ h3.layout = elem ∧
        h4.layout = elem := by
  obtain ⟨nodes, elem, hn, he, -, -, -, ⟨hx, hxT, hxP, hxo⟩, ⟨hmin, hmax⟩, ⟨hdf, hdg, -⟩,
      ⟨h0, h1, h2, h3⟩, ⟨hnd, hna⟩⟩ :=
    Init_returned_object DIM PHYSICS mo oo LxCorrect LyCorrect LzCorrect m s0 mesh u c h
  obtain ⟨k1, k2, k3, k4, e1, e2, e3, e4, l1, l2, l3, l4⟩ :=
    AllocateMMAwithRestart_history_layout ro fs c.state itr r hro hr
  have hxl : c.state.x.layout = elem := by rw [hx]; rfl
  refine ⟨nodes, elem, hn, he, hxl, ?_, ?_, ?_, ?_, ?_, ?_, ?_, ?_, ?_, ?_, ?_, ?_, ?_,
    k1, k2, k3, k4, e1, e2, e3, e4, l1.trans hxl, l2.trans hxl, l3.trans hxl, l4.trans hxl⟩
  · rw [hxT]; rfl
  · rw [hxP]; rfl
  · rw [hxo]; rfl
  · rw [hmin]; rfl
  · rw [hmax]; rfl
  · rw [hdf]; rfl
  · intro g hg
    rw [hdg] at hg
    rw [List.eq_of_mem_replicate hg]; rfl
  · rw [h0]; rfl
  · rw [h1]; rfl
  · rw [h2]; rfl
  · rw [h3]; rfl
  · rw [hnd]; rfl
  · rw [hna]; rfl

theorem builtObject_allocated :
    AllocateMMAwithRestart {} emptyFS builtObject.state 0 = some
      { state := builtObject.state.prepared {}, itr := 0,
        mma := MMA.fromDesign (VecGetSize builtObject.state.x) builtObject.state.m
          builtObject.state.x (List.replicate builtObject.state.m 0)
          (List.replicate builtObject.state.m 1000) (List.replicate builtObject.state.m 0),
        reads := [] } :=
  AllocateMMAwithRestart_cold {} emptyFS builtObject.state 0 (by decide)

theorem Init_layouts_witness :
    Init Dim.three Physics.heat tinyOptions {} [3] [2] [2] 3 (defaults3D Physics.heat)
        rawMembers = SetUpResult.returned builtMesh builtObject ∧
      ({} : RestartOptions).restart.getD true = true ∧
      ∃ r, AllocateMMAwithRestart {} emptyFS builtObject.state 0 = some r ∧
      ∃ nodes elem, builtMesh.da_nodes = some nodes ∧ builtMesh.da_elem = some elem ∧
        builtObject.state.x.layout = elem ∧ builtObject.state.xTilde.layout = elem ∧
        builtObject.state.xPhys.layout = elem ∧ builtObject.state.xold.layout = elem ∧
        builtObject.state.xmin.layout = elem ∧ builtObject.state.xmax.layout = elem ∧
        builtObject.state.dfdx.layout = elem ∧
        (∀ g ∈ builtObject.state.dgdx, g.layout = elem) ∧
        builtObject.state.xPassive0.layout = elem ∧ builtObject.state.xPassive1.layout = elem ∧
        builtObject.state.xPassive2.layout = elem ∧ builtObject.state.xPassive3.layout = elem ∧
        builtObject.state.nodeDensity.layout = nodes ∧
        builtObject.state.nodeAddingCounts.layout = nodes ∧
        ∃ h1 h2 h3 h4, r.state.xo1 = some h1 ∧ r.state.xo2 = some h2 ∧ r.state.U = some h3 ∧
          r.state.L = some h4 ∧ h1.layout = elem ∧ h2.layout = elem ∧ h3.layout = elem ∧
          h4.layout = elem :=
  ⟨builtObject_eq, rfl, _, builtObject_allocated,
    Init_layouts Dim.three Physics.heat tinyOptions {} [3] [2] [2] 3
      (defaults3D Physics.heat) builtMesh rawMembers builtObject {} emptyFS 0 _
      builtObject_eq rfl builtObject_allocated⟩

/-! ## Theorems: spacing, element coordinates and partition sums -/

theorem cellCentred_algebra (lo hi m k : ℚ) (h1 : m ≠ 0) (h2 : m - 1 ≠ 0) :
    lo + (hi - lo) / m / 2 + k * ((hi - (hi - lo) / m / 2 - (lo + (hi - lo) / m / 2)) / (m - 1))
        = lo + (k + 1 / 2) * ((hi - lo) / m) ∧
      lo + (k + 1 / 2) * ((hi - lo) / m)
        = (lo + k * ((hi - lo) / m) + (lo + (k + 1) * ((hi - lo) / m))) / 2 ∧
      (hi - (hi - lo) / m / 2 - (lo + (hi - lo) / m / 2)) / (m - 1) = (hi - lo) / m := by
  refine ⟨?_, ?_, ?_⟩
  · field_simp
    ring
  · field_simp
    ring
  · field_simp
    ring

theorem cellCentred_of_three_le (lo hi : PetscScalar) (n : Int) (hn : 3 ≤ n) :
    CellCentred lo hi n (spacing lo hi n) ((spacing lo hi n).map fun d => lo + d / 2)
      ((spacing lo hi n).map fun d => hi - d / 2) := by
  have h1 : n - 1 ≠ 0 := by omega
  have h2 : n - 1 - 1 ≠ 0 := by omega
  have q1 : ((n - 1 : Int) : ℚ) ≠ 0 := by exact_mod_cast h1
  have q2 : ((n - 1 - 1 : Int) : ℚ) ≠ 0 := by exact_mod_cast h2
  have e12 : ((n - 1 - 1 : Int) : ℚ) = ((n - 1 : Int) : ℚ) - 1 := by push_cast; ring
  have q3 : ((n - 1 : Int) : ℚ) - 1 ≠ 0 := by rw [← e12]; exact q2
  have hsp : spacing lo hi n = some ((hi - lo) / ((n - 1 : Int) : ℚ)) := by
    simp [spacing, h1]
  refine ⟨(hi - lo) / ((n - 1 : Int) : ℚ), hsp, rfl, by rw [hsp]; rfl, by rw [hsp]; rfl,
    ?_, ?_, ?_⟩
  · intro k
    simp only [uniformCoordinate, h2, if_false]
    rw [e12, (cellCentred_algebra lo hi _ (k : ℚ) q1 q3).1]
  · intro k
    refine ⟨lo + (k : ℚ) * ((hi - lo) / ((n - 1 : Int) : ℚ)),
      lo + ((k : ℚ) + 1) * ((hi - lo) / ((n - 1 : Int) : ℚ)), ?_, ?_, ?_⟩
    · simp only [uniformCoordinate, h1, if_false]
    · simp only [uniformCoordinate, h1, if_false]
      push_cast
      rfl
    · exact (cellCentred_algebra lo hi _ (k : ℚ) q1 q3).2.1
  · rw [e12]
    exact (cellCentred_algebra lo hi _ 0 q1 q3).2.2

/-- C16: when `SetUpMESH` returns, on every axis with at least 3 nodes the spacing
member is `(max - min) / (n - 1)` and the element grid is given the coordinate
range `[min + d/2, max - d/2]`, so that its `n - 1` points are cell-centred:
point `k` lies at `min + (k + 1/2) d`, the midpoint of the nodes `k` and
`k + 1`, and the element points are `d` apart. -/
theorem SetUpMESH_cell_centred (DIM : Dim) (PHYSICS : Physics) (o : MeshOptions)
    (LxCorrect LyCorrect LzCorrect : List PetscInt) (s0 s t : MeshState)
    (hs : readMeshOptions DIM o s0 = s)
    (h : SetUpMESH DIM PHYSICS o LxCorrect LyCorrect LzCorrect s0 = MeshResult.returned t) :
    ∃ elem ce, t.da_elem = some elem ∧ elem.coordinates = some ce ∧
      elem.M = s.nxyz0 - 1 ∧ elem.N = s.nxyz1 - 1 ∧ (DIM = Dim.three → elem.P = s.nxyz2 - 1) ∧
      (3 ≤ s.nxyz0 → CellCentred s.xc0 s.xc1 s.nxyz0 t.dx ce.xmin ce.xmax) ∧
      (3 ≤ s.nxyz1 → CellCentred s.xc2 s.xc3 s.nxyz1 t.dy ce.ymin ce.ymax) ∧
      (DIM = Dim.three → 3 ≤ s.nxyz2 →
        CellCentred s.xc4 s.xc5 s.nxyz2 t.dz ce.zmin ce.zmax) := by
  obtain ⟨nodes, elem, cn, ce, -, he, -, hce, -, -, ⟨hdx, hdy, hdz⟩, -, -, ⟨hM, hN, hP⟩, -, -,
      ⟨c1, c2, c3, c4, c5⟩⟩ :=
    SetUpMESH_returned_facts DIM PHYSICS o LxCorrect LyCorrect LzCorrect s0 s t hs h
  refine ⟨elem, ce, he, hce, hM, hN, hP, ?_, ?_, ?_⟩
  · intro hn
    rw [c1, c2, hdx]
    exact cellCentred_of_three_le _ _ _ hn
  · intro hn
    rw [c3, c4, hdy]
    exact cellCentred_of_three_le _ _ _ hn
  · intro hd hn
    rw [(c5 hd).1, (c5 hd).2, hdz hd]
    exact cellCentred_of_three_le _ _ _ hn

theorem SetUpMESH_cell_centred_witness :
    readMeshOptions Dim.three {} (defaults3D Physics.elasticity)
        = defaults3D Physics.elasticity ∧
      SetUpMESH Dim.three Physics.elasticity {} [33, 32] [33] [17, 16]
        (defaults3D Physics.elasticity) = MeshResult.returned meshExample ∧
      ∃ elem ce, meshExample.da_elem = some elem ∧ elem.coordinates = some ce ∧
        elem.M = (defaults3D Physics.elasticity).nxyz0 - 1 ∧
        elem.N = (defaults3D Physics.elasticity).nxyz1 - 1 ∧
        (Dim.three = Dim.three → elem.P = (defaults3D Physics.elasticity).nxyz2 - 1) ∧
        (3 ≤ (defaults3D Physics.elasticity).nxyz0 →
          CellCentred (defaults3D Physics.elasticity).xc0 (defaults3D Physics.elasticity).xc1
            (defaults3D Physics.elasticity).nxyz0 meshExample.dx ce.xmin ce.xmax) ∧
        (3 ≤ (defaults3D Physics.elasticity).nxyz1 →
          CellCentred (defaults3D Physics.elasticity).xc2 (defaults3D Physics.elasticity).xc3
            (defaults3D Physics.elasticity).nxyz1 meshExample.dy ce.ymin ce.ymax) ∧
        (Dim.three = Dim.three → 3 ≤ (defaults3D Physics.elasticity).nxyz2 →
          CellCentred (defaults3D Physics.elasticity).xc4 (defaults3D Physics.elasticity).xc5
            (defaults3D Physics.elasticity).nxyz2 meshExample.dz ce.zmin ce.zmax) :=
  ⟨rfl, meshExample_eq,
    SetUpMESH_cell_centred Dim.three Physics.elasticity {} [33, 32] [33] [17, 16]
      (defaults3D Physics.elasticity) (defaults3D Physics.elasticity) meshExample rfl
      meshExample_eq⟩

theorem elemPartition_cons (a : PetscInt) (L : List PetscInt) :
    elemPartition (a :: L).length (a :: L) = (a - 1) :: L := by
  apply List.ext_getElem?
  intro i
  rw [elemPartition_getElem?]
  cases i with
  | zero => simp
  | succ j => simp

theorem elemPartition_of_nodePartition (L : List PetscInt) (n : PetscInt)
    (h : NodePartition L n) :
    (∀ v ∈ elemPartition L.length L, 0 ≤ v) ∧ (elemPartition L.length L).sum = n - 1 := by
  obtain ⟨hne, hpos, hsum⟩ := h
  cases L with
  | nil => exact absurd rfl hne
  | cons a t =>
    rw [elemPartition_cons]
    constructor
    · intro v hv
      rcases List.mem_cons.mp hv with rfl | hv
      · have : (1 : Int) ≤ a := hpos a (List.mem_cons_self a t)
        show (0 : Int) ≤ a - 1
        omega
      · have : (1 : Int) ≤ v := hpos v (List.mem_cons_of_mem a hv)
        show (0 : Int) ≤ v
        omega
    · rw [← hsum]
      simp only [List.sum_cons]
      show (a - 1 + t.sum : Int) = a + t.sum - 1
      ring

/-- C17: when `SetUpMESH` returns, on every axis whose node-grid partition table is
not empty, has every entry at least 1 and sums to the node count `n`, the
element-grid partition table has every entry at least 0 and sums to `n - 1`,
which is the global extent with which the element grid is created. -/
theorem SetUpMESH_elem_partition_sum (DIM : Dim) (PHYSICS : Physics) (o : MeshOptions)
    (LxCorrect LyCorrect LzCorrect : List PetscInt) (s0 s t : MeshState)
    (hs : readMeshOptions DIM o s0 = s)
    (h : SetUpMESH DIM PHYSICS o LxCorrect LyCorrect LzCorrect s0 = MeshResult.returned t) :
    ∃ nodes elem, t.da_nodes = some nodes ∧ t.da_elem = some elem ∧
      (NodePartition nodes.lx s.nxyz0 →
        (∀ v ∈ elem.lx, 0 ≤ v) ∧ elem.lx.sum = s.nxyz0 - 1 ∧ elem.M = s.nxyz0 - 1) ∧
      (NodePartition nodes.ly s.nxyz1 →
        (∀ v ∈ elem.ly, 0 ≤ v) ∧ elem.ly.sum = s.nxyz1 - 1 ∧ elem.N = s.nxyz1 - 1) ∧
      (DIM = Dim.three → NodePartition nodes.lz s.nxyz2 →
        (∀ v ∈ elem.lz, 0 ≤ v) ∧ elem.lz.sum = s.nxyz2 - 1 ∧ elem.P = s.nxyz2 - 1) := by
  obtain ⟨nodes, elem, cn, ce, hn, he, -, -, -, -, -, -, ⟨nx, ny, nz⟩, ⟨hM, hN, hP⟩,
      ⟨ex, ey, ez⟩, -⟩ :=
    SetUpMESH_returned_facts DIM PHYSICS o LxCorrect LyCorrect LzCorrect s0 s t hs h
  refine ⟨nodes, elem, hn, he, ?_, ?_, ?_⟩
  · intro hp
    rw [nx] at hp
    rw [ex]
    exact ⟨(elemPartition_of_nodePartition _ _ hp).1, (elemPartition_of_nodePartition _ _ hp).2,
      hM⟩
  · intro hp
    rw [ny] at hp
    rw [ey]
    exact ⟨(elemPartition_of_nodePartition _ _ hp).1, (elemPartition_of_nodePartition _ _ hp).2,
      hN⟩
  · intro hd hp
    rw [nz hd] at hp
    rw [ez hd]
    exact ⟨(elemPartition_of_nodePartition _ _ hp).1, (elemPartition_of_nodePartition _ _ hp).2,
      hP hd⟩

theorem SetUpMESH_elem_partition_sum_witness :
    readMeshOptions Dim.three {} (defaults3D Physics.elasticity)
        = defaults3D Physics.elasticity ∧
      SetUpMESH Dim.three Physics.elasticity {} [33, 32] [33] [17, 16]
        (defaults3D Physics.elasticity) = MeshResult.returned meshExample ∧
      NodePartition [33, 32] 65 ∧ NodePartition [33] 33 ∧ NodePartition [17, 16] 33 ∧
      ∃ nodes elem, meshExample.da_nodes = some nodes ∧ meshExample.da_elem = some elem ∧
        (NodePartition nodes.lx (defaults3D Physics.elasticity).nxyz0 →
          (∀ v ∈ elem.lx, 0 ≤ v) ∧ elem.lx.sum = (defaults3D Physics.elasticity).nxyz0 - 1 ∧
            elem.M = (defaults3D Physics.elasticity).nxyz0 - 1) ∧
        (NodePartition nodes.ly (defaults3D Physics.elasticity).nxyz1 →
          (∀ v ∈ elem.ly, 0 ≤ v) ∧ elem.ly.sum = (defaults3D Physics.elasticity).nxyz1 - 1 ∧
            elem.N = (defaults3D Physics.elasticity).nxyz1 - 1) ∧
        (Dim.three = Dim.three → NodePartition nodes.lz (defaults3D Physics.elasticity).nxyz2 →
          (∀ v ∈ elem.lz, 0 ≤ v) ∧ elem.lz.sum = (defaults3D Physics.elasticity).nxyz2 - 1 ∧
            elem.P = (defaults3D Physics.elasticity).nxyz2 - 1) :=
  ⟨rfl, meshExample_eq,
    ⟨by decide, by decide, by decide⟩, ⟨by decide, by decide, by decide⟩,
    ⟨by decide, by decide, by decide⟩,
    SetUpMESH_elem_partition_sum Dim.three Physics.elasticity {} [33, 32] [33] [17, 16]
      (defaults3D Physics.elasticity) (defaults3D Physics.elasticity) meshExample rfl
      meshExample_eq⟩

/-! ## Theorems: which node counts the test accepts -/

theorem halvable_ge (n levels : Int) (h : Halvable n levels) (hn : 2 ≤ n) :
    (2 : Int) ^ (levels - 1).toNat ≤ n - 1 := by
  unfold Halvable at h
  have hd : (2 : Int) ^ (levels - 1).toNat ∣ n - 1 := Int.dvd_of_emod_eq_zero h
  exact Int.le_of_dvd (by omega) hd

/-- C18 as stated fails: with 4 levels the test accepts 1 node on the x axis
(`n - 1 = 0` is a multiple of 8); `SetUpMESH` then returns with a spacing that
is a division by zero and an element grid of extent 0.  It accepts -7 nodes
as well. -/
theorem one_node_accepted :
    mgIncompatible 1 4 = false ∧ mgIncompatible (-7) 4 = false ∧ (1 : Int) - 1 = 0 ∧
      ∃ t elem, SetUpMESH Dim.three Physics.elasticity { nx := some 1 } [1] [33] [33]
          (defaults3D Physics.elasticity) = MeshResult.returned t ∧
        t.nxyz0 = 1 ∧ t.nlvls = 4 ∧ t.dx = none ∧ t.da_elem = some elem ∧ elem.M = 0 := by
  have h1 : mgIncompatible 1 4 = false := by
    rw [mgIncompatible_eq_false_iff 1 4 (by decide) (by decide) (by decide)]; decide
  have h7 : mgIncompatible (-7) 4 = false := by
    rw [mgIncompatible_eq_false_iff (-7) 4 (by decide) (by decide) (by decide)]; decide
  have h33 : mgIncompatible 33 4 = false := by
    rw [mgIncompatible_eq_false_iff 33 4 (by decide) (by decide) (by decide)]; decide
  have hret : ∃ t, SetUpMESH Dim.three Physics.elasticity { nx := some 1 } [1] [33] [33]
      (defaults3D Physics.elasticity) = MeshResult.returned t := by
    rw [SetUpMESH_returned_iff]
    simp [mgCheck, readMeshOptions, defaults3D, h1, h33]
  obtain ⟨t, ht⟩ := hret
  obtain ⟨nodes, elem, cn, ce, -, he, -, -, -, ⟨n0, -, -, nl, -⟩, ⟨hdx, -, -⟩, -, -, ⟨hM, -, -⟩,
      -⟩ :=
    SetUpMESH_returned_facts Dim.three Physics.elasticity { nx := some 1 } [1] [33] [33]
      (defaults3D Physics.elasticity) _ t rfl ht
  refine ⟨h1, h7, by decide, t, elem, ht, n0, nl, ?_, he, ?_⟩
  · rw [hdx]; rfl
  · rw [hM]; rfl

/-- C18, amended: for a level count of at least 1, when `SetUpMESH` returns, on
every axis: a node count `n` other than 1 makes the divisor `n - 1` of the
spacing non-zero, so that the spacing is `(max - min) / (n - 1)`; and a node
count `n ≥ 2` satisfies `n - 1 ≥ 2^(levels - 1) ≥ 1`, so that the element grid
has at least one cell on that axis.  (The test does not exclude `n = 1`, nor
the non-positive counts `n` with `n - 1` a multiple of `2^(levels - 1)`.) -/
theorem SetUpMESH_accepted_counts (DIM : Dim) (PHYSICS : Physics) (o : MeshOptions)
    (LxCorrect LyCorrect LzCorrect : List PetscInt) (s0 s t : MeshState)
    (hs : readMeshOptions DIM o s0 = s) (hl : 1 ≤ s.nlvls)
    (h : SetUpMESH DIM PHYSICS o LxCorrect LyCorrect LzCorrect s0 = MeshResult.returned t) :
    ∃ elem, t.da_elem = some elem ∧
      ((s.nxyz0 ≠ 1 → s.nxyz0 - 1 ≠ 0 ∧
          t.dx = some ((s.xc1 - s.xc0) / ((s.nxyz0 - 1 : Int) : ℚ))) ∧
        (2 ≤ s.nxyz0 → 2 ^ (s.nlvls - 1).toNat ≤ s.nxyz0 - 1 ∧ 1 ≤ elem.M)) ∧
      ((s.nxyz1 ≠ 1 → s.nxyz1 - 1 ≠ 0 ∧
          t.dy = some ((s.xc3 - s.xc2) / ((s.nxyz1 - 1 : Int) : ℚ))) ∧
        (2 ≤ s.nxyz1 → 2 ^ (s.nlvls - 1).toNat ≤ s.nxyz1 - 1 ∧ 1 ≤ elem.N)) ∧
      (DIM = Dim.three →
        (s.nxyz2 ≠ 1 → s.nxyz2 - 1 ≠ 0 ∧
          t.dz = some ((s.xc5 - s.xc4) / ((s.nxyz2 - 1 : Int) : ℚ))) ∧
        (2 ≤ s.nxyz2 → 2 ^ (s.nlvls - 1).toNat ≤ s.nxyz2 - 1 ∧ 1 ≤ elem.P)) := by
  obtain ⟨nodes, elem, cn, ce, -, he, -, -, hc, -, ⟨hdx, hdy, hdz⟩, -, -, ⟨hM, hN, hP⟩, -⟩ :=
    SetUpMESH_returned_facts DIM PHYSICS o LxCorrect LyCorrect LzCorrect s0 s t hs h
  obtain ⟨ax, ay, az⟩ := mgCheck_eq_none_halvable DIM s.nxyz0 s.nxyz1 s.nxyz2 s.nlvls hl hc
  have key : ∀ (lo hi : PetscScalar) (n : Int), Halvable n s.nlvls →
      (n ≠ 1 → n - 1 ≠ 0 ∧ spacing lo hi n = some ((hi - lo) / ((n - 1 : Int) : ℚ))) ∧
      (2 ≤ n → 2 ^ (s.nlvls - 1).toNat ≤ n - 1 ∧ 1 ≤ n - 1) := by
    intro lo hi n hh
    constructor
    · intro hn
      have h1 : n - 1 ≠ 0 := by omega
      exact ⟨h1, by simp [spacing, h1]⟩
    · intro hn
      exact ⟨halvable_ge n s.nlvls hh hn, by omega⟩
  refine ⟨elem, he, ?_, ?_, ?_⟩
  · rw [hdx, hM]; exact key _ _ _ ax
  · rw [hdy, hN]; exact key _ _ _ ay
  · intro hd
    rw [hdz hd, hP hd]; exact key _ _ _ (az hd)

theorem SetUpMESH_accepted_counts_witness :
    readMeshOptions Dim.three {} (defaults3D Physics.elasticity)
        = defaults3D Physics.elasticity ∧
      1 ≤ (defaults3D Physics.elasticity).nlvls ∧
      SetUpMESH Dim.three Physics.elasticity {} [33, 32] [33] [17, 16]
        (defaults3D Physics.elasticity) = MeshResult.returned meshExample ∧
      ∃ elem, meshExample.da_elem = some elem ∧
        (2 ^ ((defaults3D Physics.elasticity).nlvls - 1).toNat
            ≤ (defaults3D Physics.elasticity).nxyz0 - 1 ∧ 1 ≤ elem.M) ∧
        (2 ^ ((defaults3D Physics.elasticity).nlvls - 1).toNat
            ≤ (defaults3D Physics.elasticity).nxyz1 - 1 ∧ 1 ≤ elem.N) ∧
        (2 ^ ((defaults3D Physics.elasticity).nlvls - 1).toNat
            ≤ (defaults3D Physics.elasticity).nxyz2 - 1 ∧ 1 ≤ elem.P) := by
  refine ⟨rfl, by decide, meshExample_eq, ?_⟩
  obtain ⟨elem, he, hx, hy, hz⟩ :=
    SetUpMESH_accepted_counts Dim.three Physics.elasticity {} [33, 32] [33] [17, 16]
      (defaults3D Physics.elasticity) (defaults3D Physics.elasticity) meshExample rfl
      (by decide) meshExample_eq
  exact ⟨elem, he, hx.2 (by decide), hy.2 (by decide), (hz rfl).2 (by decide)⟩

end TopOpt
